import Mathlib

/-!
# vtkDataObjectToConduit: dataset to Conduit node translation

A shallow embedding of `Clients/InSitu/vtkDataObjectToConduit.cxx`:
the array view builder (`ConvertDataArrayToMCArray`), the point
decomposition (`ConvertPoints`), the topology encoder (`FillTopology`), the
field encoder (`FillFields`) and the orchestrator (`FillConduitNode`).

Conventions of the embedding:
* a `conduit_cpp::Node&` handle is a pair of the whole output tree and the
  slash-separated path of the handle;
* pointers that the code dereferences without a null check are non-optional
  fields, pointers that the code tests are `Option`s;
* `int`, `vtkIdType` and `conduit_index_t` values are integers, and the
  `int * sizeof(T)` products, which C++ evaluates in `size_t`, are reduced
  modulo `2 ^ 64` explicitly.
-/

namespace vtkDataObjectToConduit

/-! ## Constants of `vtkType.h`, `vtkCellType.h` and `vtkAbstractArray.h` -/

def VTK_VOID : Int := 0
def VTK_BIT : Int := 1
def VTK_CHAR : Int := 2
def VTK_UNSIGNED_CHAR : Int := 3
def VTK_SHORT : Int := 4
def VTK_UNSIGNED_SHORT : Int := 5
def VTK_INT : Int := 6
def VTK_UNSIGNED_INT : Int := 7
def VTK_LONG : Int := 8
def VTK_UNSIGNED_LONG : Int := 9
def VTK_FLOAT : Int := 10
def VTK_DOUBLE : Int := 11
def VTK_ID_TYPE : Int := 12
def VTK_STRING : Int := 13
def VTK_SIGNED_CHAR : Int := 15
def VTK_LONG_LONG : Int := 16
def VTK_UNSIGNED_LONG_LONG : Int := 17

def VTK_VERTEX : Int := 1
def VTK_LINE : Int := 3
def VTK_TRIANGLE : Int := 5
def VTK_QUAD : Int := 9
def VTK_TETRA : Int := 10
def VTK_HEXAHEDRON : Int := 12
def VTK_POLYGON : Int := 7

/-- The array-type tag `vtkAbstractArray::AbstractArray`. -/
def AbstractArray : Int := 0
/-- The array-type tag `vtkAbstractArray::DataArray`. -/
def DataArray : Int := 1
/-- The array-type tag `vtkAbstractArray::AoSDataArrayTemplate` (interleaved). -/
def AoSDataArrayTemplate : Int := 2
/-- The array-type tag `vtkAbstractArray::SoADataArrayTemplate` (planar). -/
def SoADataArrayTemplate : Int := 3
/-- The array-type tag `vtkAbstractArray::TypedDataArray`. -/
def TypedDataArray : Int := 4
/-- The array-type tag `vtkAbstractArray::MappedDataArray`. -/
def MappedDataArray : Int := 5
/-- The array-type tag `vtkAbstractArray::ScaledSoADataArrayTemplate`. -/
def ScaledSoADataArrayTemplate : Int := 6

/-- The two preprocessor choices the translation unit depends on: whether
plain `char` is signed (`CHAR_MIN == SCHAR_MIN && CHAR_MAX == SCHAR_MAX`) and
whether `VTK_TYPE_INT64` expands to `VTK_LONG_LONG` or to `VTK_LONG`. -/
structure BuildConfig where
  charIsSigned : Bool
  int64IsLongLong : Bool
deriving DecidableEq, Repr

/-- The macro `VTK_TYPE_INT64` of `vtkType.h`. -/
def VTK_TYPE_INT64 (cfg : BuildConfig) : Int :=
  if cfg.int64IsLongLong then VTK_LONG_LONG else VTK_LONG

/-! ## Input data model -/

/-- What the translator reads from a `vtkDataArray`: `GetName()` (`none` for
a null name), `GetDataType()`, `GetDataTypeSize()`, `GetArrayType()`,
`GetNumberOfValues()` and the address `GetVoidPointer(0)`. -/
structure vtkDataArray where
  GetName : Option String
  GetDataType : Int
  GetDataTypeSize : Int
  GetArrayType : Int
  GetNumberOfValues : Nat
  GetVoidPointer : Nat
deriving DecidableEq, Repr

/-- A `vtkPoints` object; `GetData()` may be null. -/
structure vtkPoints where
  GetData : Option vtkDataArray
deriving DecidableEq, Repr

/-- A `vtkFieldData` collection: `GetArray(i)` for `i < GetNumberOfArrays()`. -/
structure vtkFieldData where
  arrays : List vtkDataArray
deriving DecidableEq, Repr

/-- A `double`, carried as its bit pattern; the translator only copies it. -/
structure Double where
  bits : Nat
deriving DecidableEq, Repr

/-- The outcome of the `SafeDownCast` chain of `FillTopology`, with the
members each branch reads. For an unstructured grid `cellTypes` lists
`GetCellType(i)` for `i < GetNumberOfCells()` and `connectivityArray` is
`GetCells()->GetConnectivityArray()`. -/
inductive Grid where
  | imageData (dimensions : Int × Int × Int) (origin spacing : Double × Double × Double)
  | rectilinearGrid (xCoordinates yCoordinates zCoordinates : vtkDataArray)
  | structuredGrid (points : vtkPoints) (dimensions : Int × Int × Int)
  | unstructuredGrid (points : Option vtkPoints) (cellTypes : List Int)
      (connectivityArray : vtkDataArray)
  | otherDataSet
deriving DecidableEq, Repr

/-- A `vtkDataSet`: its grid and its three attribute collections. -/
structure vtkDataSet where
  grid : Grid
  GetCellData : Option vtkFieldData
  GetPointData : Option vtkFieldData
  GetFieldData : Option vtkFieldData
deriving DecidableEq, Repr

/-- A `vtkDataObject*`: either it down-casts to a data set or it does not. -/
inductive vtkDataObject where
  | dataSet (data_set : vtkDataSet)
  | notDataSet
deriving DecidableEq, Repr

/-! ## Output tree -/

/-- Element kind of a fixed-width Conduit view. -/
inductive ElementKind where
  | signedInt
  | unsignedInt
  | floating
deriving DecidableEq, Repr

/-- A zero-copy view set by one of the `set_external_*_ptr` calls: element
kind and byte width, base address, element count, byte offset, byte stride. -/
structure ExternalView where
  kind : ElementKind
  width : Nat
  pointer : Nat
  numberOfElements : Int
  byteOffset : Int
  byteStride : Int
deriving DecidableEq, Repr

/-- The value held at one path of the output tree. -/
inductive Leaf where
  | string (s : String)
  | int32 (v : Int)
  | float64 (v : Double)
  | float32Array (values : List Nat)
  | externalView (v : ExternalView)
deriving DecidableEq, Repr

/-- Modelled from the spec: the output tree (`conduit_cpp::Node` is a library
type that is not part of the sources), "a hierarchical mapping from
slash-separated path strings to either a scalar (string/number) or a typed
numeric view". The mapping is kept as a list of entries keyed by the whole
path. It agrees with the hierarchical tree as long as no path written is
a proper extension of another path written, which holds for the literal
paths of `FillTopology` and for the paths of fields whose names contain no
`/`; the statements on the entries of a named field assume such names. -/
structure Node where
  entries : List (String × Leaf)
deriving DecidableEq, Repr

/-- Replace the value at `path`, or append a new entry. -/
def setEntry (path : String) (v : Leaf) : List (String × Leaf) → List (String × Leaf)
  | [] => [(path, v)]
  | (q, w) :: rest => if q = path then (path, v) :: rest else (q, w) :: setEntry path v rest

/-- The value at `path`, if any. -/
def getEntry (path : String) : List (String × Leaf) → Option Leaf
  | [] => none
  | (q, w) :: rest => if q = path then some w else getEntry path rest

/-- The assignment `node[path] = v`. -/
def Node.set (node : Node) (path : String) (v : Leaf) : Node :=
  ⟨setEntry path v node.entries⟩

/-- Reading `node[path]`. -/
def Node.get (node : Node) (path : String) : Option Leaf :=
  getEntry path node.entries

/-- The element count a leaf reports. -/
def Leaf.numberOfElements : Leaf → Int
  | .string s => s.utf8ByteSize + 1
  | .int32 _ => 1
  | .float64 _ => 1
  | .float32Array values => values.length
  | .externalView v => v.numberOfElements

/-- Address of element `i` of a view. -/
def ExternalView.elementAddress (v : ExternalView) (i : Int) : Int :=
  v.pointer + v.byteOffset + i * v.byteStride

/-- Address of value `j` of the buffer returned by `GetVoidPointer(0)`. -/
def vtkDataArray.valueAddress (a : vtkDataArray) (j : Int) : Int :=
  a.GetVoidPointer + j * a.GetDataTypeSize

/-- The bytes of a `width`-byte element stored at `address`. -/
def readElement (memory : Int → Nat) (address : Int) (width : Nat) : List Nat :=
  (List.range width).map fun k => memory (address + k)

/-- Reading element `i` through a view. -/
def ExternalView.read (memory : Int → Nat) (v : ExternalView) (i : Int) : List Nat :=
  readElement memory (v.elementAddress i) v.width

/-- Reading value `j` of the source buffer of an array. -/
def vtkDataArray.read (memory : Int → Nat) (a : vtkDataArray) (j : Int) : List Nat :=
  readElement memory (a.valueAddress j) a.GetDataTypeSize.toNat

/-! ## Machine arithmetic -/

/-- Conversion of a signed integer to the 64-bit `size_t`. -/
def toSizeT (x : Int) : Nat := (x % 2 ^ 64).toNat

/-- Conversion of a `size_t` value to the signed 64-bit `conduit_index_t`. -/
def toIndexT (n : Nat) : Int :=
  if n % 2 ^ 64 < 2 ^ 63 then ((n % 2 ^ 64 : Nat) : Int) else ((n % 2 ^ 64 : Nat) : Int) - 2 ^ 64

/-- The argument expression `x * sizeof(T)` with `x` an `int` and
`sizeof(T) = width`: the product is taken in `size_t` and passed as a
`conduit_index_t`. -/
def timesSizeof (x : Int) (width : Nat) : Int :=
  toIndexT ((toSizeT x * width) % 2 ^ 64)

/-! ## Type classification helpers -/

/-- `vtkDataObjectToConduit::IsSignedIntegralType`. -/
def IsSignedIntegralType (cfg : BuildConfig) (data_type : Int) : Bool :=
  if cfg.charIsSigned then
    (data_type == VTK_CHAR) || (data_type == VTK_SIGNED_CHAR) || (data_type == VTK_SHORT) ||
      (data_type == VTK_INT) || (data_type == VTK_LONG) || (data_type == VTK_ID_TYPE) ||
      (data_type == VTK_LONG_LONG) || (data_type == VTK_TYPE_INT64 cfg)
  else
    (data_type == VTK_SIGNED_CHAR) || (data_type == VTK_SHORT) || (data_type == VTK_INT) ||
      (data_type == VTK_LONG) || (data_type == VTK_ID_TYPE) || (data_type == VTK_LONG_LONG) ||
      (data_type == VTK_TYPE_INT64 cfg)

/-- `vtkDataObjectToConduit::IsUnsignedIntegralType`. -/
def IsUnsignedIntegralType (cfg : BuildConfig) (data_type : Int) : Bool :=
  if cfg.charIsSigned then
    (data_type == VTK_UNSIGNED_CHAR) || (data_type == VTK_UNSIGNED_SHORT) ||
      (data_type == VTK_UNSIGNED_INT) || (data_type == VTK_UNSIGNED_LONG) ||
      (data_type == VTK_ID_TYPE) || (data_type == VTK_UNSIGNED_LONG_LONG)
  else
    (data_type == VTK_CHAR) || (data_type == VTK_UNSIGNED_CHAR) || (data_type == VTK_SHORT) ||
      (data_type == VTK_INT) || (data_type == VTK_LONG) || (data_type == VTK_ID_TYPE) ||
      (data_type == VTK_LONG_LONG) || (data_type == VTK_TYPE_INT64 cfg)

/-- `vtkDataObjectToConduit::IsFloatType`. -/
def IsFloatType (data_type : Int) : Bool :=
  (data_type == VTK_FLOAT) || (data_type == VTK_DOUBLE)

/-! ## Conduit view constructors -/

/-- Common body of the `set_external_*_ptr` family: the node at `path`
becomes an external view of `num_elements` elements of the given kind and
width over the buffer at `data`. -/
def set_external_ptr (kind : ElementKind) (width : Nat) (conduit_node : Node) (path : String)
    (data : Nat) (num_elements offset stride : Int) : Node :=
  conduit_node.set path (.externalView ⟨kind, width, data, num_elements, offset, stride⟩)

/-- `conduit_cpp::Node::set_external_int8_ptr`. -/
def set_external_int8_ptr (conduit_node : Node) (path : String) (data : Nat)
    (num_elements offset stride : Int) : Node :=
  set_external_ptr .signedInt 1 conduit_node path data num_elements offset stride

/-- `conduit_cpp::Node::set_external_int16_ptr`. -/
def set_external_int16_ptr (conduit_node : Node) (path : String) (data : Nat)
    (num_elements offset stride : Int) : Node :=
  set_external_ptr .signedInt 2 conduit_node path data num_elements offset stride

/-- `conduit_cpp::Node::set_external_int32_ptr`. -/
def set_external_int32_ptr (conduit_node : Node) (path : String) (data : Nat)
    (num_elements offset stride : Int) : Node :=
  set_external_ptr .signedInt 4 conduit_node path data num_elements offset stride

/-- `conduit_cpp::Node::set_external_int64_ptr`. -/
def set_external_int64_ptr (conduit_node : Node) (path : String) (data : Nat)
    (num_elements offset stride : Int) : Node :=
  set_external_ptr .signedInt 8 conduit_node path data num_elements offset stride

/-- `conduit_cpp::Node::set_external_uint8_ptr`. -/
def set_external_uint8_ptr (conduit_node : Node) (path : String) (data : Nat)
    (num_elements offset stride : Int) : Node :=
  set_external_ptr .unsignedInt 1 conduit_node path data num_elements offset stride

/-- `conduit_cpp::Node::set_external_uint16_ptr`. -/
def set_external_uint16_ptr (conduit_node : Node) (path : String) (data : Nat)
    (num_elements offset stride : Int) : Node :=
  set_external_ptr .unsignedInt 2 conduit_node path data num_elements offset stride

/-- `conduit_cpp::Node::set_external_uint32_ptr`. -/
def set_external_uint32_ptr (conduit_node : Node) (path : String) (data : Nat)
    (num_elements offset stride : Int) : Node :=
  set_external_ptr .unsignedInt 4 conduit_node path data num_elements offset stride

/-- `conduit_cpp::Node::set_external_uint64_ptr`. -/
def set_external_uint64_ptr (conduit_node : Node) (path : String) (data : Nat)
    (num_elements offset stride : Int) : Node :=
  set_external_ptr .unsignedInt 8 conduit_node path data num_elements offset stride

/-- `conduit_cpp::Node::set_external_float32_ptr`. -/
def set_external_float32_ptr (conduit_node : Node) (path : String) (data : Nat)
    (num_elements offset stride : Int) : Node :=
  set_external_ptr .floating 4 conduit_node path data num_elements offset stride

/-- `conduit_cpp::Node::set_external_float64_ptr`. -/
def set_external_float64_ptr (conduit_node : Node) (path : String) (data : Nat)
    (num_elements offset stride : Int) : Node :=
  set_external_ptr .floating 8 conduit_node path data num_elements offset stride

/-! ## Array View Builder -/

/-- `vtkDataObjectToConduit::ConvertDataArrayToMCArray(data_array, offset,
stride, conduit_node)`. The node handle is `(conduit_node, path)`; the result
is `is_success` and the tree after the call. Each branch yields the pair
`(is_supported, tree)`; `is_success` is `false` exactly when `is_supported`
is. When none of the three kind tests holds no branch is taken and
`is_supported` keeps its initial value `true`. -/
def ConvertDataArrayToMCArray (cfg : BuildConfig) (data_array : vtkDataArray)
    (offset stride : Int) (conduit_node : Node) (path : String) : Bool × Node :=
  let stride := max stride 1
  let number_of_elements : Int := Int.tdiv data_array.GetNumberOfValues stride
  let data_type := data_array.GetDataType
  let data_type_size := data_array.GetDataTypeSize
  let array_type := data_array.GetArrayType
  let data := data_array.GetVoidPointer
  let result : Bool × Node :=
    if IsSignedIntegralType cfg data_type then
      if data_type_size = 1 then
        if array_type = AoSDataArrayTemplate then
          (true, set_external_int8_ptr conduit_node path data number_of_elements
              (timesSizeof offset 1) (timesSizeof stride 1))
        else if array_type = SoADataArrayTemplate then
          (true, set_external_int8_ptr conduit_node path data number_of_elements
              (timesSizeof offset 1) (timesSizeof stride 1))
        else
          (false, conduit_node)
      else if data_type_size = 2 then
        if array_type = AoSDataArrayTemplate then
          (true, set_external_int16_ptr conduit_node path data number_of_elements
              (timesSizeof offset 2) (timesSizeof stride 2))
        else if array_type = SoADataArrayTemplate then
          (true, set_external_int16_ptr conduit_node path data number_of_elements
              (timesSizeof offset 2) (timesSizeof stride 2))
        else
          (false, conduit_node)
      else if data_type_size = 4 then
        if array_type = AoSDataArrayTemplate then
          (true, set_external_int32_ptr conduit_node path data number_of_elements
              (timesSizeof offset 4) (timesSizeof stride 4))
        else if array_type = SoADataArrayTemplate then
          (true, set_external_int32_ptr conduit_node path data number_of_elements
              (timesSizeof offset 4) (timesSizeof stride 4))
        else
          (false, conduit_node)
      else if data_type_size = 8 then
        if array_type = AoSDataArrayTemplate then
          (true, set_external_int64_ptr conduit_node path data number_of_elements
              (timesSizeof offset 8) (timesSizeof stride 8))
        else if array_type = SoADataArrayTemplate then
          (true, set_external_int64_ptr conduit_node path data number_of_elements
              (timesSizeof offset 8) (timesSizeof stride 8))
        else
          (false, conduit_node)
      else
        (false, conduit_node)
    else if IsUnsignedIntegralType cfg data_type then
      if data_type_size = 1 then
        if array_type = AoSDataArrayTemplate then
          (true, set_external_uint8_ptr conduit_node path data number_of_elements
              (timesSizeof offset 1) (timesSizeof stride 1))
        else if array_type = SoADataArrayTemplate then
          (true, set_external_uint8_ptr conduit_node path data number_of_elements
              (timesSizeof offset 1) (timesSizeof stride 1))
        else
          (false, conduit_node)
      else if data_type_size = 2 then
        if array_type = AoSDataArrayTemplate then
          (true, set_external_uint16_ptr conduit_node path data number_of_elements
              (timesSizeof offset 2) (timesSizeof stride 2))
        else if array_type = SoADataArrayTemplate then
          (true, set_external_uint16_ptr conduit_node path data number_of_elements
              (timesSizeof offset 2) (timesSizeof stride 2))
        else
          (false, conduit_node)
      else if data_type_size = 4 then
        if array_type = AoSDataArrayTemplate then
          (true, set_external_uint32_ptr conduit_node path data number_of_elements
              (timesSizeof offset 4) (timesSizeof stride 4))
        else if array_type = SoADataArrayTemplate then
          (true, set_external_uint32_ptr conduit_node path data number_of_elements
              (timesSizeof offset 4) (timesSizeof stride 4))
        else
          (false, conduit_node)
      else if data_type_size = 8 then
        if array_type = AoSDataArrayTemplate then
          (true, set_external_uint64_ptr conduit_node path data number_of_elements
              (timesSizeof offset 8) (timesSizeof stride 8))
        else if array_type = SoADataArrayTemplate then
          (true, set_external_uint64_ptr conduit_node path data number_of_elements
              (timesSizeof offset 8) (timesSizeof stride 8))
        else
          (false, conduit_node)
      else
        (false, conduit_node)
    else if IsFloatType data_type then
      if data_type_size = 4 then
        if array_type = AoSDataArrayTemplate then
          (true, set_external_float32_ptr conduit_node path data number_of_elements
              (timesSizeof offset 4) (timesSizeof stride 4))
        else if array_type = SoADataArrayTemplate then
          (true, set_external_float32_ptr conduit_node path data number_of_elements
              (timesSizeof offset 4) (timesSizeof stride 4))
        else
          (false, conduit_node)
      else if data_type_size = 8 then
        if array_type = AoSDataArrayTemplate then
          (true, set_external_float64_ptr conduit_node path data number_of_elements
              (timesSizeof offset 8) (timesSizeof stride 8))
        else if array_type = SoADataArrayTemplate then
          (true, set_external_float64_ptr conduit_node path data number_of_elements
              (timesSizeof offset 8) (timesSizeof stride 8))
        else
          (false, conduit_node)
      else
        (false, conduit_node)
    else
      (true, conduit_node)
  if !result.1 then (false, result.2) else (true, result.2)

/-- `vtkDataObjectToConduit::ConvertDataArrayToMCArray(data_array,
conduit_node)`, the overload without offset and stride. -/
def ConvertDataArrayToMCArray2 (cfg : BuildConfig) (data_array : vtkDataArray)
    (conduit_node : Node) (path : String) : Bool × Node :=
  ConvertDataArrayToMCArray cfg data_array 0 0 conduit_node path

/-- `vtkDataObjectToConduit::ConvertPoints`; the three node handles are the
paths `x_path`, `y_path`, `z_path` of one tree. -/
def ConvertPoints (cfg : BuildConfig) (points : vtkPoints) (conduit_node : Node)
    (x_path y_path z_path : String) : Bool × Node :=
  match points.GetData with
  | none => (false, conduit_node)
  | some data_array =>
    let rx := ConvertDataArrayToMCArray cfg data_array 0 3 conduit_node x_path
    if rx.1 then
      let ry := ConvertDataArrayToMCArray cfg data_array 1 3 rx.2 y_path
      if ry.1 then
        ConvertDataArrayToMCArray cfg data_array 2 3 ry.2 z_path
      else ry
    else rx

/-- The distinct cell types that `vtkUnstructuredGrid::GetCellTypes` collects. -/
def GetCellTypes (cellTypes : List Int) : List Int := cellTypes.dedup

/-- `vtkDataObjectToConduit::IsMixedShape`. -/
def IsMixedShape (cellTypes : List Int) : Bool :=
  decide ((GetCellTypes cellTypes).length > 1)

/-- `vtkUnstructuredGrid::GetCellType(i)` for `i < GetNumberOfCells()`. -/
def GetCellType (cellTypes : List Int) (i : Nat) : Int := cellTypes.getD i 0

/-! ## Topology Encoder -/

/-- The `switch (cell_type)` of `FillTopology`, writing `elements/shape`
under `topologies/mesh`; the `default` case only logs. -/
def setShape (topologies_node : Node) (cell_type : Int) : Node :=
  if cell_type = VTK_HEXAHEDRON then
    topologies_node.set "topologies/mesh/elements/shape" (.string "hex")
  else if cell_type = VTK_TETRA then
    topologies_node.set "topologies/mesh/elements/shape" (.string "tet")
  else if cell_type = VTK_QUAD then
    topologies_node.set "topologies/mesh/elements/shape" (.string "quad")
  else if cell_type = VTK_TRIANGLE then
    topologies_node.set "topologies/mesh/elements/shape" (.string "tri")
  else if cell_type = VTK_LINE then
    topologies_node.set "topologies/mesh/elements/shape" (.string "line")
  else if cell_type = VTK_VERTEX then
    topologies_node.set "topologies/mesh/elements/shape" (.string "point")
  else
    topologies_node

/-- `vtkDataObjectToConduit::FillTopology`: `is_success` and the tree after
the call. -/
def FillTopology (cfg : BuildConfig) (data_set : vtkDataSet) (conduit_node : Node) :
    Bool × Node :=
  match data_set.grid with
  | .imageData dimensions origin spacing =>
    let n := conduit_node.set "coordsets/coords/type" (.string "uniform")
    let n := n.set "coordsets/coords/dims/i" (.int32 dimensions.1)
    let n := n.set "coordsets/coords/dims/j" (.int32 dimensions.2.1)
    let n := n.set "coordsets/coords/dims/k" (.int32 dimensions.2.2)
    let n := n.set "coordsets/coords/origin/x" (.float64 origin.1)
    let n := n.set "coordsets/coords/origin/y" (.float64 origin.2.1)
    let n := n.set "coordsets/coords/origin/z" (.float64 origin.2.2)
    let n := n.set "coordsets/coords/spacing/dx" (.float64 spacing.1)
    let n := n.set "coordsets/coords/spacing/dy" (.float64 spacing.2.1)
    let n := n.set "coordsets/coords/spacing/dz" (.float64 spacing.2.2)
    let n := n.set "topologies/mesh/type" (.string "uniform")
    let n := n.set "topologies/mesh/coordset" (.string "coords")
    (true, n)
  | .rectilinearGrid xCoordinates yCoordinates zCoordinates =>
    let n := conduit_node.set "coordsets/coords/type" (.string "rectilinear")
    let rx := ConvertDataArrayToMCArray2 cfg xCoordinates n "coordsets/coords/values/x"
    let ry :=
      if rx.1 then ConvertDataArrayToMCArray2 cfg yCoordinates rx.2 "coordsets/coords/values/y"
      else rx
    let rz :=
      if ry.1 then ConvertDataArrayToMCArray2 cfg zCoordinates ry.2 "coordsets/coords/values/z"
      else ry
    if rz.1 then
      let n := rz.2.set "topologies/mesh/type" (.string "rectilinear")
      let n := n.set "topologies/mesh/coordset" (.string "coords")
      (true, n)
    else rz
  | .structuredGrid points dimensions =>
    let n := conduit_node.set "coordsets/coords/type" (.string "explicit")
    let r := ConvertPoints cfg points n "coordsets/coords/values/x"
      "coordsets/coords/values/y" "coordsets/coords/values/z"
    if r.1 then
      let n := r.2.set "topologies/mesh/type" (.string "structured")
      let n := n.set "topologies/mesh/coordset" (.string "coords")
      let n := n.set "topologies/mesh/elements/dims/i" (.int32 dimensions.1)
      let n := n.set "topologies/mesh/elements/dims/j" (.int32 dimensions.2.1)
      let n := n.set "topologies/mesh/elements/dims/k" (.int32 dimensions.2.2)
      (true, n)
    else r
  | .unstructuredGrid points cellTypes connectivityArray =>
    let r0 : Bool × Node :=
      if IsMixedShape cellTypes then (false, conduit_node) else (true, conduit_node)
    let r1 : Bool × Node :=
      if r0.1 then
        let n := r0.2.set "coordsets/coords/type" (.string "explicit")
        match points with
        | none =>
          let n := n.set "coordsets/coords/values/x" (.float32Array [])
          let n := n.set "coordsets/coords/values/y" (.float32Array [])
          let n := n.set "coordsets/coords/values/z" (.float32Array [])
          (true, n)
        | some points =>
          ConvertPoints cfg points n "coordsets/coords/values/x"
            "coordsets/coords/values/y" "coordsets/coords/values/z"
      else r0
    if r1.1 then
      let n := r1.2.set "topologies/mesh/type" (.string "unstructured")
      let n := n.set "topologies/mesh/coordset" (.string "coords")
      let number_of_cells := cellTypes.length
      let cell_type := if number_of_cells > 0 then GetCellType cellTypes 0 else VTK_VERTEX
      let n := setShape n cell_type
      ConvertDataArrayToMCArray2 cfg connectivityArray n "topologies/mesh/elements/connectivity"
    else r1
  | .otherDataSet => (false, conduit_node)

/-! ## Field Encoder -/

/-- The loop of `vtkDataObjectToConduit::FillFields(vtkFieldData*, association,
conduit_node)` over the arrays that remain; it stops at the first failed
conversion and skips an array without a name. -/
def FillFieldsLoop (cfg : BuildConfig) (association : String) :
    List vtkDataArray → Node → Bool × Node
  | [], conduit_node => (true, conduit_node)
  | array :: rest, conduit_node =>
    match array.GetName with
    | none => FillFieldsLoop cfg association rest conduit_node
    | some name =>
      let n := conduit_node.set ("fields/" ++ name ++ "/association") (.string association)
      let n := n.set ("fields/" ++ name ++ "/topology") (.string "mesh")
      let n := n.set ("fields/" ++ name ++ "/volume_dependent") (.string "false")
      let r := ConvertDataArrayToMCArray2 cfg array n ("fields/" ++ name ++ "/values")
      if r.1 then FillFieldsLoop cfg association rest r.2 else r

/-- `vtkDataObjectToConduit::FillFields(vtkFieldData*, association,
conduit_node)`. -/
def FillFieldsOfFieldData (cfg : BuildConfig) (field_data : vtkFieldData)
    (association : String) (conduit_node : Node) : Bool × Node :=
  FillFieldsLoop cfg association field_data.arrays conduit_node

/-- `vtkDataObjectToConduit::FillFields(vtkDataSet*, conduit_node)`. The
field-data collection is looked up and nothing is done with it. -/
def FillFields (cfg : BuildConfig) (data_set : vtkDataSet) (conduit_node : Node) :
    Bool × Node :=
  let r1 : Bool × Node :=
    match data_set.GetCellData with
    | some cell_data => FillFieldsOfFieldData cfg cell_data "element" conduit_node
    | none => (true, conduit_node)
  let r2 : Bool × Node :=
    if r1.1 then
      match data_set.GetPointData with
      | some point_data => FillFieldsOfFieldData cfg point_data "vertex" r1.2
      | none => r1
    else r1
  if r2.1 then
    match data_set.GetFieldData with
    | some _ => r2
    | none => r2
  else r2

/-! ## Orchestrator -/

/-- `vtkDataObjectToConduit::FillConduitNode(vtkDataSet*, conduit_node)`. -/
def FillConduitNodeOfDataSet (cfg : BuildConfig) (data_set : vtkDataSet)
    (conduit_node : Node) : Bool × Node :=
  let r := FillTopology cfg data_set conduit_node
  if r.1 then FillFields cfg data_set r.2 else r

/-- `vtkDataObjectToConduit::FillConduitNode(vtkDataObject*, conduit_node)`. -/
def FillConduitNode (cfg : BuildConfig) (data_object : vtkDataObject) (conduit_node : Node) :
    Bool × Node :=
  match data_object with
  | .notDataSet => (false, conduit_node)
  | .dataSet data_set => FillConduitNodeOfDataSet cfg data_set conduit_node

/-! ## Vocabulary of the specification -/

/-- The element kind the dispatch chain of `ConvertDataArrayToMCArray`
selects for a type tag: the signed test comes first, then the unsigned test,
then the floating-point test; `none` when all three fail. -/
def elementKind (cfg : BuildConfig) (data_type : Int) : Option ElementKind :=
  if IsSignedIntegralType cfg data_type then some .signedInt
  else if IsUnsignedIntegralType cfg data_type then some .unsignedInt
  else if IsFloatType data_type then some .floating
  else none

/-- Byte widths with a view constructor: 1, 2, 4, 8 for the integer kinds
and 4, 8 for floating point. -/
def widthSupported : ElementKind → Int → Bool
  | .signedInt, w => w = 1 || w = 2 || w = 4 || w = 8
  | .unsignedInt, w => w = 1 || w = 2 || w = 4 || w = 8
  | .floating, w => w = 4 || w = 8

/-- The two recognised layouts: interleaved (AoS) and planar (SoA). -/
def layoutRecognized (array_type : Int) : Bool :=
  array_type = AoSDataArrayTemplate || array_type = SoADataArrayTemplate

/-- An array of kind `k` with a supported (kind, width, layout) combination. -/
def supportedAs (cfg : BuildConfig) (a : vtkDataArray) (k : ElementKind) : Prop :=
  elementKind cfg a.GetDataType = some k ∧ widthSupported k a.GetDataTypeSize = true ∧
    layoutRecognized a.GetArrayType = true

/-- An array with a supported encoding. -/
def supportedEncoding (cfg : BuildConfig) (a : vtkDataArray) : Prop :=
  ∃ k, supportedAs cfg a k

/-- A view of kind `k` over the buffer of an array: the array's width and
base address, `count` elements, the given byte offset and byte stride. -/
def viewOf (a : vtkDataArray) (k : ElementKind) (count byteOffset byteStride : Int) :
    ExternalView :=
  ⟨k, a.GetDataTypeSize.toNat, a.GetVoidPointer, count, byteOffset, byteStride⟩

/-- The value range of the C++ type `int`. -/
def isInt32 (x : Int) : Prop := -2 ^ 31 ≤ x ∧ x < 2 ^ 31

/-- The literals expected at `coordsets/coords/type` and
`topologies/mesh/type` for each of the four grid kinds. -/
def expectedTypes : Grid → Option (String × String)
  | .imageData _ _ _ => some ("uniform", "uniform")
  | .rectilinearGrid _ _ _ => some ("rectilinear", "rectilinear")
  | .structuredGrid _ _ => some ("explicit", "structured")
  | .unstructuredGrid _ _ _ => some ("explicit", "unstructured")
  | .otherDataSet => none

/-- The view of kind `k` that selects every `max(stride, 1)`-th value of an
array starting at value `offset`: `total_values / max(stride, 1)` elements,
byte offset `offset * width`, byte stride `max(stride, 1) * width`. -/
def stridedView (a : vtkDataArray) (k : ElementKind) (offset stride : Int) : ExternalView :=
  viewOf a k ((a.GetNumberOfValues : Int) / max stride 1) (offset * a.GetDataTypeSize)
    (max stride 1 * a.GetDataTypeSize)

/-- The paths `FillTopology` can write. -/
def topologyPaths : List String :=
  ["coordsets/coords/type",
   "coordsets/coords/dims/i", "coordsets/coords/dims/j", "coordsets/coords/dims/k",
   "coordsets/coords/origin/x", "coordsets/coords/origin/y", "coordsets/coords/origin/z",
   "coordsets/coords/spacing/dx", "coordsets/coords/spacing/dy", "coordsets/coords/spacing/dz",
   "coordsets/coords/values/x", "coordsets/coords/values/y", "coordsets/coords/values/z",
   "topologies/mesh/type", "topologies/mesh/coordset",
   "topologies/mesh/elements/dims/i", "topologies/mesh/elements/dims/j",
   "topologies/mesh/elements/dims/k",
   "topologies/mesh/elements/shape", "topologies/mesh/elements/connectivity"]

/-- The view `v` aliases the whole buffer of the array `a`: same base
address and element width, one element per value, contiguous from the
start, and element `i` of the view is value `i` of the buffer (same address,
hence the same bytes in every memory). -/
def isWholeArrayViewOf (v : ExternalView) (a : vtkDataArray) : Prop :=
  v.pointer = a.GetVoidPointer ∧ (v.width : Int) = a.GetDataTypeSize ∧
  v.numberOfElements = a.GetNumberOfValues ∧
  v.byteOffset = 0 ∧ v.byteStride = a.GetDataTypeSize ∧
  ∀ i : Int, 0 ≤ i → i < a.GetNumberOfValues →
    v.elementAddress i = a.valueAddress i ∧
    ∀ memory : Int → Nat, v.read memory i = a.read memory i

/-- The three coordinate value paths. -/
def coordinateValuePaths : List String :=
  ["coordsets/coords/values/x", "coordsets/coords/values/y", "coordsets/coords/values/z"]

/-- The coordinate step of the unstructured branch of `FillTopology` (the
block guarded by the first `if (is_success)`), run on a grid that is not of
mixed shape: it writes `coordsets/coords/type`, then either three empty
sequences when there is no points object or the three point views. -/
def unstructuredCoordinates (cfg : BuildConfig) (points : Option vtkPoints) (n : Node) :
    Bool × Node :=
  match points with
  | none =>
    (true, (((n.set "coordsets/coords/type" (.string "explicit")).set
      "coordsets/coords/values/x" (.float32Array [])).set
      "coordsets/coords/values/y" (.float32Array [])).set
      "coordsets/coords/values/z" (.float32Array []))
  | some points =>
    ConvertPoints cfg points (n.set "coordsets/coords/type" (.string "explicit"))
      "coordsets/coords/values/x" "coordsets/coords/values/y" "coordsets/coords/values/z"

/-- The shape literal the `switch` of `FillTopology` has for a cell type. -/
def shapeLiteral (cell_type : Int) : Option String :=
  if cell_type = VTK_HEXAHEDRON then some "hex"
  else if cell_type = VTK_TETRA then some "tet"
  else if cell_type = VTK_QUAD then some "quad"
  else if cell_type = VTK_TRIANGLE then some "tri"
  else if cell_type = VTK_LINE then some "line"
  else if cell_type = VTK_VERTEX then some "point"
  else none

/-- The cell types for which the `switch` of `FillTopology` has a case. -/
def mappedCellTypes : List Int :=
  [VTK_HEXAHEDRON, VTK_TETRA, VTK_QUAD, VTK_TRIANGLE, VTK_LINE, VTK_VERTEX]

/-- The arrays of a collection that have a name, in their order. -/
def namedArrays (arrays : List vtkDataArray) : List vtkDataArray :=
  arrays.filter fun a => a.GetName.isSome

/-- A dataset with the unnamed arrays removed from its cell and point data. -/
def withoutUnnamedArrays (data_set : vtkDataSet) : vtkDataSet :=
  { data_set with
    GetCellData := data_set.GetCellData.map fun fd => ⟨namedArrays fd.arrays⟩
    GetPointData := data_set.GetPointData.map fun fd => ⟨namedArrays fd.arrays⟩ }

/-- The empty output tree. -/
def emptyNode : Node := ⟨[]⟩

/-- Whether the view builder returns true on an array (the result depends
on neither the tree, the path, the offset nor the stride). -/
def converts (cfg : BuildConfig) (a : vtkDataArray) : Bool :=
  (ConvertDataArrayToMCArray2 cfg a emptyNode "").1

/-- The kind the dispatch would select if the unsigned test came before the
signed test. -/
def elementKindUnsignedFirst (cfg : BuildConfig) (data_type : Int) : Option ElementKind :=
  if IsUnsignedIntegralType cfg data_type then some .unsignedInt
  else if IsSignedIntegralType cfg data_type then some .signedInt
  else if IsFloatType data_type then some .floating
  else none

/-- The type tags of the unsigned integer types. -/
def unsignedTypeTags : List Int :=
  [VTK_UNSIGNED_CHAR, VTK_UNSIGNED_SHORT, VTK_UNSIGNED_INT, VTK_UNSIGNED_LONG,
    VTK_UNSIGNED_LONG_LONG]

/-- The type tags short, int, long and long long. -/
def signedTypeTags : List Int :=
  [VTK_SHORT, VTK_INT, VTK_LONG, VTK_LONG_LONG]

/-- The arrays of the cell data of a dataset, none when it is absent. -/
def cellArrays (data_set : vtkDataSet) : List vtkDataArray :=
  (data_set.GetCellData.map fun fd => fd.arrays).getD []

/-- The arrays of the point data of a dataset, none when it is absent. -/
def pointArrays (data_set : vtkDataSet) : List vtkDataArray :=
  (data_set.GetPointData.map fun fd => fd.arrays).getD []

/-- An array name without the path separator. The field loop uses the name
as a path below `fields`, so only such a name denotes one child of `fields`. -/
def plainName (name : String) : Prop := '/' ∉ name.data

/-- Every named array of the list has a name without the path separator. -/
def plainNames (arrays : List vtkDataArray) : Prop :=
  ∀ a ∈ arrays, ∀ name : String, a.GetName = some name → plainName name

/-! ## Sample inputs -/

/-- A build with signed plain `char` and `VTK_TYPE_INT64 = VTK_LONG_LONG`. -/
def sampleConfig : BuildConfig := ⟨true, true⟩

/-- Six 4-byte floats (two interleaved points) at address 1000. -/
def sampleFloatArray : vtkDataArray :=
  ⟨some "p", VTK_FLOAT, 4, AoSDataArrayTemplate, 6, 1000⟩

/-- Four 8-byte doubles in planar layout at address 2000. -/
def sampleDoubleArray : vtkDataArray :=
  ⟨some "d", VTK_DOUBLE, 8, SoADataArrayTemplate, 4, 2000⟩

/-- Five 2-byte signed integers at address 3000. -/
def sampleShortArray : vtkDataArray :=
  ⟨some "s", VTK_SHORT, 2, AoSDataArrayTemplate, 5, 3000⟩

/-- An empty 8-byte signed connectivity array at address 4000. -/
def sampleEmptyConnectivity : vtkDataArray :=
  ⟨none, VTK_LONG_LONG, 8, AoSDataArrayTemplate, 0, 4000⟩

/-- A `vtkBitArray` of five values: type tag `VTK_BIT`, `GetDataTypeSize()`
0, array type `DataArray`. -/
def sampleBitArray : vtkDataArray :=
  ⟨some "b", VTK_BIT, 0, DataArray, 5, 5000⟩

/-- A structured grid of two points stored as six interleaved floats. -/
def sampleStructuredGrid : vtkDataSet :=
  ⟨.structuredGrid ⟨some sampleFloatArray⟩ (2, 1, 1), some ⟨[]⟩, some ⟨[]⟩, none⟩

/-- A rectilinear grid whose axes are a double, a float and a short array. -/
def sampleRectilinearGrid : vtkDataSet :=
  ⟨.rectilinearGrid sampleDoubleArray sampleFloatArray sampleShortArray,
    some ⟨[]⟩, some ⟨[]⟩, none⟩

/-- An unstructured grid with one triangle and one quad. -/
def sampleMixedGrid : vtkDataSet :=
  ⟨.unstructuredGrid (some ⟨some sampleFloatArray⟩) [VTK_TRIANGLE, VTK_QUAD]
    sampleEmptyConnectivity, some ⟨[]⟩, some ⟨[]⟩, none⟩

/-- An unstructured grid with two points and no cells. -/
def samplePointsOnlyGrid : vtkDataSet :=
  ⟨.unstructuredGrid (some ⟨some sampleFloatArray⟩) [] sampleEmptyConnectivity,
    some ⟨[]⟩, some ⟨[]⟩, none⟩

/-- An unstructured grid with no points object and no cells. -/
def sampleEmptyGrid : vtkDataSet :=
  ⟨.unstructuredGrid none [] sampleEmptyConnectivity, some ⟨[]⟩, some ⟨[]⟩, none⟩

/-- A uniform grid carrying a bit array as point data. -/
def sampleImageWithBitField : vtkDataSet :=
  ⟨.imageData (2, 2, 2) (⟨0⟩, ⟨0⟩, ⟨0⟩) (⟨1⟩, ⟨1⟩, ⟨1⟩), some ⟨[]⟩, some ⟨[sampleBitArray]⟩,
    none⟩

/-- A zero-cell unstructured grid without points whose cell data holds a
named float array in the scaled planar layout
(`vtkAbstractArray::ScaledSoADataArrayTemplate`). -/
def sampleEmptyGridWithScaledField : vtkDataSet :=
  ⟨.unstructuredGrid none [] sampleEmptyConnectivity,
    some ⟨[⟨some "w", VTK_FLOAT, 4, ScaledSoADataArrayTemplate, 0, 6000⟩]⟩, some ⟨[]⟩, none⟩

/-- A uniform grid of 2 x 3 x 4 points with origin (bit patterns) 10, 20, 30
and spacing 1, 2, 3. -/
def sampleImageData : vtkDataSet :=
  ⟨.imageData (2, 3, 4) (⟨10⟩, ⟨20⟩, ⟨30⟩) (⟨1⟩, ⟨2⟩, ⟨3⟩), some ⟨[]⟩, some ⟨[]⟩, none⟩

/-- The planar twin of `sampleFloatArray`: same type tag, width, value count
and buffer, layout tag `SoADataArrayTemplate`. -/
def sampleFloatArrayPlanar : vtkDataArray :=
  ⟨some "p", VTK_FLOAT, 4, SoADataArrayTemplate, 6, 1000⟩

/-- A named float array in the scaled planar layout, for which the view
builder has no constructor. -/
def sampleScaledArray : vtkDataArray :=
  ⟨some "w", VTK_FLOAT, 4, ScaledSoADataArrayTemplate, 4, 7000⟩

/-- A rectilinear grid whose Y axis is stored in the scaled planar layout. -/
def sampleRectilinearGridBadY : vtkDataSet :=
  ⟨.rectilinearGrid sampleDoubleArray sampleScaledArray sampleShortArray,
    some ⟨[]⟩, some ⟨[]⟩, none⟩

/-- A connectivity array of three 8-byte ids at address 8000. -/
def sampleConnectivity : vtkDataArray :=
  ⟨none, VTK_LONG_LONG, 8, AoSDataArrayTemplate, 3, 8000⟩

/-- An unstructured grid with one triangle cell. -/
def sampleTriangleGrid : vtkDataSet :=
  ⟨.unstructuredGrid (some ⟨some sampleFloatArray⟩) [VTK_TRIANGLE] sampleConnectivity,
    some ⟨[]⟩, some ⟨[]⟩, none⟩

/-- An unstructured grid with one polygon cell. -/
def samplePolygonGrid : vtkDataSet :=
  ⟨.unstructuredGrid (some ⟨some sampleFloatArray⟩) [VTK_POLYGON] sampleConnectivity,
    some ⟨[]⟩, some ⟨[]⟩, none⟩

/-- An unnamed array in the scaled planar layout. -/
def sampleUnnamedArray : vtkDataArray :=
  ⟨none, VTK_FLOAT, 4, ScaledSoADataArrayTemplate, 4, 9000⟩

/-- A uniform grid whose cell data is a short array, the scaled array and a
double array, and whose point data is a float array. -/
def sampleImageWithBadCellField : vtkDataSet :=
  ⟨.imageData (2, 2, 2) (⟨0⟩, ⟨0⟩, ⟨0⟩) (⟨1⟩, ⟨1⟩, ⟨1⟩),
    some ⟨[sampleShortArray, sampleScaledArray, sampleDoubleArray]⟩,
    some ⟨[sampleFloatArray]⟩, none⟩

/-- An unstructured grid with one vertex cell and no points object. -/
def sampleCellsWithoutPoints : vtkDataSet :=
  ⟨.unstructuredGrid none [VTK_VERTEX] sampleConnectivity, some ⟨[]⟩, some ⟨[]⟩, none⟩

/-- An unstructured grid with one vertex cell whose points object holds no
array. -/
def sampleCellsWithEmptyPoints : vtkDataSet :=
  ⟨.unstructuredGrid (some ⟨none⟩) [VTK_VERTEX] sampleConnectivity, some ⟨[]⟩, some ⟨[]⟩,
    none⟩

/-- A dataset that is none of the four grid kinds (for instance poly data),
with a named float array as point data. -/
def sampleOtherDataSet : vtkDataSet :=
  ⟨.otherDataSet, some ⟨[]⟩, some ⟨[sampleFloatArray]⟩, none⟩

/-- The structured sample grid with a field-data collection attached. -/
def sampleStructuredGridWithFieldData : vtkDataSet :=
  { sampleStructuredGrid with GetFieldData := some ⟨[sampleDoubleArray]⟩ }

/-- A build in which plain `char` is unsigned. -/
def sampleUnsignedCharConfig : BuildConfig := ⟨false, true⟩

/-- Four 2-byte unsigned shorts at address 10000. -/
def sampleUnsignedShortArray : vtkDataArray :=
  ⟨some "u", VTK_UNSIGNED_SHORT, 2, AoSDataArrayTemplate, 4, 10000⟩

/-- Six bit values (two points of three components) in a `vtkBitArray`. -/
def sampleBitPointArray : vtkDataArray :=
  ⟨some "Points", VTK_BIT, 0, DataArray, 6, 11000⟩

/-- A structured grid of 2 x 1 x 1 points whose point array is a bit array. -/
def sampleStructuredGridBitPoints : vtkDataSet :=
  ⟨.structuredGrid ⟨some sampleBitPointArray⟩ (2, 1, 1), some ⟨[]⟩, some ⟨[]⟩, none⟩

/-- A structured grid whose points object holds no array. -/
def sampleStructuredGridNoData : vtkDataSet :=
  ⟨.structuredGrid ⟨none⟩ (2, 1, 1), some ⟨[]⟩, some ⟨[]⟩, none⟩

/-- A cell array with the same name as `sampleFloatArray`. -/
def sampleCellArrayNamedP : vtkDataArray :=
  ⟨some "p", VTK_SHORT, 2, AoSDataArrayTemplate, 1, 12000⟩

/-- A cell array whose name contains the path separator. -/
def sampleArrayNamedPValues : vtkDataArray :=
  ⟨some "p/values", VTK_SHORT, 2, AoSDataArrayTemplate, 1, 13000⟩

/-- A uniform grid whose cell data holds an array named "p" and then an
array named "p/values". -/
def sampleNestedNameGrid : vtkDataSet :=
  ⟨.imageData (2, 2, 2) (⟨0⟩, ⟨0⟩, ⟨0⟩) (⟨1⟩, ⟨1⟩, ⟨1⟩),
    some ⟨[sampleCellArrayNamedP, sampleArrayNamedPValues]⟩, some ⟨[]⟩, none⟩

/-! ## Lemmas on the output tree -/

theorem getEntry_setEntry (p q : String) (v : Leaf) (l : List (String × Leaf)) :
    getEntry q (setEntry p v l) = if p = q then some v else getEntry q l := by
  induction l with
  | nil => simp [setEntry, getEntry]
  | cons e rest ih =>
    obtain ⟨r, w⟩ := e
    by_cases hrp : r = p
    · subst hrp
      by_cases hrq : r = q <;> simp [setEntry, getEntry, hrq]
    · by_cases hpq : p = q
      · subst hpq
        simp [setEntry, getEntry, hrp, ih]
      · by_cases hrq : r = q
        · subst hrq
          simp [setEntry, getEntry, hrp, hpq]
        · simp [setEntry, getEntry, hrp, hrq, hpq, ih]

theorem Node.get_set (n : Node) (p q : String) (v : Leaf) :
    (n.set p v).get q = if p = q then some v else n.get q := by
  simp [Node.set, Node.get, getEntry_setEntry]

theorem Node.get_set_self (n : Node) (p : String) (v : Leaf) :
    (n.set p v).get p = some v := by
  simp [Node.get_set]

theorem Node.get_set_of_ne (n : Node) (p q : String) (v : Leaf) (h : p ≠ q) :
    (n.set p v).get q = n.get q := by
  simp [Node.get_set, h]

/-! ## Lemmas on the machine arithmetic -/

theorem timesSizeof_eq (x : Int) (w : Nat) (hx : isInt32 x)
    (hw : w = 1 ∨ w = 2 ∨ w = 4 ∨ w = 8) : timesSizeof x w = x * w := by
  obtain ⟨h1, h2⟩ := hx
  unfold timesSizeof toIndexT toSizeT
  rcases hw with rfl | rfl | rfl | rfl <;> (split_ifs <;> omega)

/-! ## Lemmas on the Array View Builder -/

set_option maxHeartbeats 1000000 in
/-- Closed form of the view builder: nothing is written and `true` is
returned when no kind test holds; a view is set and `true` returned when the
width and layout are supported for the selected kind; otherwise `false` is
returned and nothing is written. -/
theorem ConvertDataArrayToMCArray_eq (cfg : BuildConfig) (a : vtkDataArray)
    (offset stride : Int) (n : Node) (path : String) :
    ConvertDataArrayToMCArray cfg a offset stride n path =
      match elementKind cfg a.GetDataType with
      | none => (true, n)
      | some k =>
        if widthSupported k a.GetDataTypeSize = true ∧ layoutRecognized a.GetArrayType = true then
          (true, n.set path (.externalView (viewOf a k
            (Int.tdiv a.GetNumberOfValues (max stride 1))
            (timesSizeof offset a.GetDataTypeSize.toNat)
            (timesSizeof (max stride 1) a.GetDataTypeSize.toNat))))
        else (false, n) := by
  unfold ConvertDataArrayToMCArray elementKind viewOf
  dsimp only
  generalize IsSignedIntegralType cfg a.GetDataType = s
  generalize IsUnsignedIntegralType cfg a.GetDataType = u
  generalize IsFloatType a.GetDataType = f
  generalize a.GetDataTypeSize = w
  generalize a.GetArrayType = l
  generalize Int.tdiv a.GetNumberOfValues (max stride 1) = cnt
  generalize a.GetVoidPointer = ptr
  cases s
  · cases u
    · cases f
      · simp
      · simp only [Bool.false_eq_true, if_false, if_true]
        split_ifs <;> simp_all [widthSupported, layoutRecognized, set_external_ptr,
          set_external_float32_ptr, set_external_float64_ptr, AoSDataArrayTemplate,
          SoADataArrayTemplate]
    · simp only [Bool.false_eq_true, if_false, if_true]
      split_ifs <;> simp_all [widthSupported, layoutRecognized, set_external_ptr,
        set_external_uint8_ptr, set_external_uint16_ptr, set_external_uint32_ptr,
        set_external_uint64_ptr, AoSDataArrayTemplate, SoADataArrayTemplate]
  · simp only [if_true]
    split_ifs <;> simp_all [widthSupported, layoutRecognized, set_external_ptr,
      set_external_int8_ptr, set_external_int16_ptr, set_external_int32_ptr,
      set_external_int64_ptr, AoSDataArrayTemplate, SoADataArrayTemplate]

/-- The boolean result of the view builder does not depend on the offset,
the stride, the tree or the path. -/
theorem ConvertDataArrayToMCArray_fst (cfg : BuildConfig) (a : vtkDataArray)
    (offset stride : Int) (n : Node) (path : String) :
    (ConvertDataArrayToMCArray cfg a offset stride n path).1 =
      match elementKind cfg a.GetDataType with
      | none => true
      | some k =>
        decide (widthSupported k a.GetDataTypeSize = true ∧
          layoutRecognized a.GetArrayType = true) := by
  rw [ConvertDataArrayToMCArray_eq]
  cases elementKind cfg a.GetDataType with
  | none => rfl
  | some k => simp only; split_ifs with h <;> simp [h]

/-- The view builder writes at most at its own path. -/
theorem ConvertDataArrayToMCArray_get_of_ne (cfg : BuildConfig) (a : vtkDataArray)
    (offset stride : Int) (n : Node) (path q : String) (h : path ≠ q) :
    (ConvertDataArrayToMCArray cfg a offset stride n path).2.get q = n.get q := by
  rw [ConvertDataArrayToMCArray_eq]
  cases elementKind cfg a.GetDataType with
  | none => rfl
  | some k => simp only; split_ifs <;> simp [Node.get_set, h]

/-- On a supported encoding the view builder returns `true` and sets the view. -/
theorem ConvertDataArrayToMCArray_of_supported (cfg : BuildConfig) (a : vtkDataArray)
    (k : ElementKind) (h : supportedAs cfg a k) (offset stride : Int) (n : Node)
    (path : String) :
    ConvertDataArrayToMCArray cfg a offset stride n path =
      (true, n.set path (.externalView (viewOf a k
        (Int.tdiv a.GetNumberOfValues (max stride 1))
        (timesSizeof offset a.GetDataTypeSize.toNat)
        (timesSizeof (max stride 1) a.GetDataTypeSize.toNat)))) := by
  obtain ⟨hk, hw, hl⟩ := h
  rw [ConvertDataArrayToMCArray_eq, hk]
  simp [hw, hl]

/-- A supported width is one of 1, 2, 4, 8. -/
theorem widthSupported_cases (k : ElementKind) (w : Int) (h : widthSupported k w = true) :
    w = 1 ∨ w = 2 ∨ w = 4 ∨ w = 8 := by
  cases k <;> simp [widthSupported] at h <;> omega

theorem widthSupported_toNat (k : ElementKind) (w : Int) (h : widthSupported k w = true) :
    (w.toNat = 1 ∨ w.toNat = 2 ∨ w.toNat = 4 ∨ w.toNat = 8) ∧ (w.toNat : Int) = w := by
  have := widthSupported_cases k w h
  omega

/-- Element `i` of a view with byte offset `o * width` and byte stride
`s * width` lies at the address of source value `o + i * s`. -/
theorem viewOf_elementAddress (a : vtkDataArray) (k : ElementKind) (count o s i : Int) :
    (viewOf a k count (o * a.GetDataTypeSize) (s * a.GetDataTypeSize)).elementAddress i =
      a.valueAddress (o + i * s) := by
  simp only [viewOf, ExternalView.elementAddress, vtkDataArray.valueAddress]
  ring

/-- Reading through a view element that lies at the address of a source value
yields the bytes of that value. -/
theorem viewOf_read (a : vtkDataArray) (k : ElementKind) (count bo bs i j : Int)
    (h : (viewOf a k count bo bs).elementAddress i = a.valueAddress j)
    (memory : Int → Nat) :
    (viewOf a k count bo bs).read memory i = a.read memory j := by
  simp only [ExternalView.read, vtkDataArray.read, h]
  rfl

/-- Byte offset and byte stride on a supported width, for `int` arguments. -/
theorem timesSizeof_width (k : ElementKind) (w x : Int) (hw : widthSupported k w = true)
    (hx : isInt32 x) : timesSizeof x w.toNat = x * w := by
  obtain ⟨h1, h2⟩ := widthSupported_toNat k w hw
  rw [timesSizeof_eq x w.toNat hx h1, h2]

theorem isInt32_max_one (x : Int) (hx : isInt32 x) : isInt32 (max x 1) := by
  unfold isInt32 at *
  omega

/-- The element count computed by the view builder. -/
theorem tdiv_count (T : Nat) (stride : Int) :
    Int.tdiv T (max stride 1) = (T : Int) / max stride 1 := by
  apply Int.tdiv_eq_ediv
  · exact Int.ofNat_nonneg T
  · omega

/-- C10: for every array with a classified kind `k`, a width supported for
`k` and an interleaved or planar layout, and for every `int` offset and
stride, the view builder returns true and sets at its node a view of element
type (`k`, width) over the array's buffer with element count
`total_values / max(stride, 1)`, byte offset `offset * width` and byte stride
`max(stride, 1) * width`; a stride of 0 or a negative stride gives the same
result as stride 1. -/
theorem C10_build_view_supported (cfg : BuildConfig) (a : vtkDataArray) (k : ElementKind)
    (h : supportedAs cfg a k) (offset stride : Int) (ho : isInt32 offset)
    (hs : isInt32 stride) (n : Node) (path : String) :
    (ConvertDataArrayToMCArray cfg a offset stride n path).1 = true ∧
    (ConvertDataArrayToMCArray cfg a offset stride n path).2.get path =
      some (.externalView
        { kind := k
          width := a.GetDataTypeSize.toNat
          pointer := a.GetVoidPointer
          numberOfElements := (a.GetNumberOfValues : Int) / max stride 1
          byteOffset := offset * a.GetDataTypeSize
          byteStride := max stride 1 * a.GetDataTypeSize }) ∧
    ((a.GetDataTypeSize.toNat : Int) = a.GetDataTypeSize) ∧
    (stride ≤ 0 → ConvertDataArrayToMCArray cfg a offset stride n path =
      ConvertDataArrayToMCArray cfg a offset 1 n path) := by
  have hw := h.2.1
  rw [ConvertDataArrayToMCArray_of_supported cfg a k h]
  refine ⟨rfl, ?_, (widthSupported_toNat k _ hw).2, ?_⟩
  · rw [Node.get_set_self, tdiv_count, timesSizeof_width k _ _ hw ho,
      timesSizeof_width k _ _ hw (isInt32_max_one _ hs)]
    rfl
  · intro hle
    rw [ConvertDataArrayToMCArray_of_supported cfg a k h]
    have h1 : max stride 1 = 1 := by omega
    have h2 : max (1 : Int) 1 = 1 := by omega
    rw [h1, h2]

theorem sampleShortArray_supported : supportedAs sampleConfig sampleShortArray .signedInt := by
  refine ⟨?_, ?_, ?_⟩ <;> decide

/-- Witness of C10 on five shorts with offset 1 and stride -2: the view has
five 2-byte elements, byte offset 2 and byte stride 2. -/
theorem C10_build_view_supported_witness :
    supportedAs sampleConfig sampleShortArray .signedInt ∧ isInt32 1 ∧ isInt32 (-2) ∧
    (ConvertDataArrayToMCArray sampleConfig sampleShortArray 1 (-2) emptyNode "v").2.get "v" =
      some (.externalView ⟨.signedInt, 2, 3000, 5, 2, 2⟩) :=
  ⟨sampleShortArray_supported, by unfold isInt32; omega, by unfold isInt32; omega,
    (C10_build_view_supported sampleConfig sampleShortArray .signedInt
      sampleShortArray_supported 1 (-2) (by unfold isInt32; omega) (by unfold isInt32; omega)
      emptyNode "v").2.1⟩

/-- On a supported encoding and `int` arguments the view builder sets the
strided view. -/
theorem ConvertDataArrayToMCArray_strided (cfg : BuildConfig) (a : vtkDataArray)
    (k : ElementKind) (h : supportedAs cfg a k) (offset stride : Int) (ho : isInt32 offset)
    (hs : isInt32 stride) (n : Node) (path : String) :
    ConvertDataArrayToMCArray cfg a offset stride n path =
      (true, n.set path (.externalView (stridedView a k offset stride))) := by
  rw [ConvertDataArrayToMCArray_of_supported cfg a k h, tdiv_count,
    timesSizeof_width k _ _ h.2.1 ho, timesSizeof_width k _ _ h.2.1 (isInt32_max_one _ hs)]
  rfl

theorem isInt32_small (x : Int) (h0 : 0 ≤ x) (h3 : x ≤ 3) : isInt32 x := by
  unfold isInt32
  omega

/-- The whole-array overload on a supported encoding. -/
theorem ConvertDataArrayToMCArray2_strided (cfg : BuildConfig) (a : vtkDataArray)
    (k : ElementKind) (h : supportedAs cfg a k) (n : Node) (path : String) :
    ConvertDataArrayToMCArray2 cfg a n path =
      (true, n.set path (.externalView (stridedView a k 0 1))) := by
  unfold ConvertDataArrayToMCArray2
  rw [ConvertDataArrayToMCArray_strided cfg a k h 0 0 (isInt32_small 0 (by omega) (by omega))
    (isInt32_small 0 (by omega) (by omega))]
  rfl

theorem stridedView_numberOfElements (a : vtkDataArray) (k : ElementKind) (offset stride : Int) :
    (stridedView a k offset stride).numberOfElements =
      (a.GetNumberOfValues : Int) / max stride 1 := rfl

theorem stridedView_elementAddress (a : vtkDataArray) (k : ElementKind)
    (offset stride i : Int) :
    (stridedView a k offset stride).elementAddress i =
      a.valueAddress (offset + i * max stride 1) :=
  viewOf_elementAddress a k _ offset (max stride 1) i

theorem stridedView_read (a : vtkDataArray) (k : ElementKind) (offset stride i : Int)
    (memory : Int → Nat) :
    (stridedView a k offset stride).read memory i =
      a.read memory (offset + i * max stride 1) :=
  viewOf_read a k _ _ _ i _ (stridedView_elementAddress a k offset stride i) memory

/-- C5: for every array of a supported (kind, width, layout) combination the
overload without offset and stride behaves as the view builder with offset 0
and stride 1: it returns true, the view it sets has as many elements as the
array has values, byte offset 0 and byte stride equal to the width, and for
every index `i` below that count view element `i` is source buffer element
`i` (same address, same bytes). -/
theorem C5_whole_array_overload (cfg : BuildConfig) (a : vtkDataArray) (k : ElementKind)
    (h : supportedAs cfg a k) (n : Node) (path : String) :
    ConvertDataArrayToMCArray2 cfg a n path = ConvertDataArrayToMCArray cfg a 0 1 n path ∧
    (ConvertDataArrayToMCArray2 cfg a n path).1 = true ∧
    ∃ v : ExternalView,
      (ConvertDataArrayToMCArray2 cfg a n path).2.get path = some (.externalView v) ∧
      v.kind = k ∧ (v.width : Int) = a.GetDataTypeSize ∧ v.pointer = a.GetVoidPointer ∧
      v.numberOfElements = a.GetNumberOfValues ∧
      v.byteOffset = 0 ∧ v.byteStride = a.GetDataTypeSize ∧
      ∀ i : Int, 0 ≤ i → i < a.GetNumberOfValues →
        v.elementAddress i = a.valueAddress i ∧
        ∀ memory : Int → Nat, v.read memory i = a.read memory i := by
  have h01 : ConvertDataArrayToMCArray cfg a 0 1 n path =
      (true, n.set path (.externalView (stridedView a k 0 1))) :=
    ConvertDataArrayToMCArray_strided cfg a k h 0 1 (isInt32_small 0 (by omega) (by omega))
      (isInt32_small 1 (by omega) (by omega)) n path
  rw [ConvertDataArrayToMCArray2_strided cfg a k h, h01]
  refine ⟨rfl, rfl, stridedView a k 0 1, Node.get_set_self _ _ _, rfl,
    (widthSupported_toNat k _ h.2.1).2, rfl, ?_, ?_, ?_, ?_⟩
  · simp [stridedView_numberOfElements]
  · simp [stridedView, viewOf]
  · simp [stridedView, viewOf]
  · intro i _ _
    have e : (0 : Int) + i * max 1 1 = i := by simp
    refine ⟨?_, fun memory => ?_⟩
    · rw [stridedView_elementAddress, e]
    · rw [stridedView_read, e]

theorem sampleDoubleArray_supported :
    supportedAs sampleConfig sampleDoubleArray .floating := by
  refine ⟨?_, ?_, ?_⟩ <;> decide

/-- Witness of C5 on four planar doubles: the overload returns true. -/
theorem C5_whole_array_overload_witness :
    supportedAs sampleConfig sampleDoubleArray .floating ∧
    (ConvertDataArrayToMCArray2 sampleConfig sampleDoubleArray emptyNode "v").1 = true :=
  ⟨sampleDoubleArray_supported,
    (C5_whole_array_overload sampleConfig sampleDoubleArray .floating
      sampleDoubleArray_supported emptyNode "v").2.1⟩

/-! ## Lemmas on the point decomposition -/

/-- Closed form of `ConvertPoints` on a point array of supported encoding. -/
theorem ConvertPoints_of_supported (cfg : BuildConfig) (a : vtkDataArray) (k : ElementKind)
    (h : supportedAs cfg a k) (n : Node) (x y z : String) :
    ConvertPoints cfg ⟨some a⟩ n x y z =
      (true, ((n.set x (.externalView (stridedView a k 0 3))).set y
        (.externalView (stridedView a k 1 3))).set z (.externalView (stridedView a k 2 3))) := by
  have i0 := isInt32_small 0 (by omega) (by omega)
  have i1 := isInt32_small 1 (by omega) (by omega)
  have i2 := isInt32_small 2 (by omega) (by omega)
  have i3 := isInt32_small 3 (by omega) (by omega)
  simp only [ConvertPoints, ConvertDataArrayToMCArray_strided cfg a k h _ _ i0 i3,
    ConvertDataArrayToMCArray_strided cfg a k h _ _ i1 i3,
    ConvertDataArrayToMCArray_strided cfg a k h _ _ i2 i3, if_true]

/-- `ConvertPoints` fails without writing when the points hold no array. -/
theorem ConvertPoints_no_data (cfg : BuildConfig) (n : Node) (x y z : String) :
    ConvertPoints cfg ⟨none⟩ n x y z = (false, n) := rfl

/-- `ConvertPoints` writes at most at its three paths. -/
theorem ConvertPoints_get_of_ne (cfg : BuildConfig) (points : vtkPoints) (n : Node)
    (x y z q : String) (hx : x ≠ q) (hy : y ≠ q) (hz : z ≠ q) :
    (ConvertPoints cfg points n x y z).2.get q = n.get q := by
  obtain ⟨data⟩ := points
  cases data with
  | none => rfl
  | some a =>
    simp only [ConvertPoints]
    split_ifs <;>
      simp only [ConvertDataArrayToMCArray_get_of_ne _ _ _ _ _ _ _ hx,
        ConvertDataArrayToMCArray_get_of_ne _ _ _ _ _ _ _ hy,
        ConvertDataArrayToMCArray_get_of_ne _ _ _ _ _ _ _ hz]

/-- C6: for every point array of a supported encoding with `T` values,
`ConvertPoints` returns true and sets at its three (distinct) nodes the views
built with (offset 0, stride 3), (offset 1, stride 3) and (offset 2,
stride 3); each has `T / 3` elements, and for every `i < T / 3` element `i`
of the x view is source value `3 * i`, of the y view source value
`3 * i + 1` and of the z view source value `3 * i + 2`. -/
theorem C6_ConvertPoints_views (cfg : BuildConfig) (a : vtkDataArray) (k : ElementKind)
    (h : supportedAs cfg a k) (n : Node) (x y z : String)
    (hxy : x ≠ y) (hxz : x ≠ z) (hyz : y ≠ z) :
    (ConvertPoints cfg ⟨some a⟩ n x y z).1 = true ∧
    ConvertPoints cfg ⟨some a⟩ n x y z =
      ConvertDataArrayToMCArray cfg a 2 3
        (ConvertDataArrayToMCArray cfg a 1 3
          (ConvertDataArrayToMCArray cfg a 0 3 n x).2 y).2 z ∧
    ∃ vx vy vz : ExternalView,
      (ConvertPoints cfg ⟨some a⟩ n x y z).2.get x = some (.externalView vx) ∧
      (ConvertPoints cfg ⟨some a⟩ n x y z).2.get y = some (.externalView vy) ∧
      (ConvertPoints cfg ⟨some a⟩ n x y z).2.get z = some (.externalView vz) ∧
      vx.numberOfElements = (a.GetNumberOfValues : Int) / 3 ∧
      vy.numberOfElements = (a.GetNumberOfValues : Int) / 3 ∧
      vz.numberOfElements = (a.GetNumberOfValues : Int) / 3 ∧
      vx.byteOffset = 0 ∧ vy.byteOffset = a.GetDataTypeSize ∧
      vz.byteOffset = 2 * a.GetDataTypeSize ∧
      vx.byteStride = 3 * a.GetDataTypeSize ∧ vy.byteStride = 3 * a.GetDataTypeSize ∧
      vz.byteStride = 3 * a.GetDataTypeSize ∧
      ∀ i : Int, 0 ≤ i → i < (a.GetNumberOfValues : Int) / 3 →
        vx.elementAddress i = a.valueAddress (3 * i) ∧
        vy.elementAddress i = a.valueAddress (3 * i + 1) ∧
        vz.elementAddress i = a.valueAddress (3 * i + 2) ∧
        ∀ memory : Int → Nat,
          vx.read memory i = a.read memory (3 * i) ∧
          vy.read memory i = a.read memory (3 * i + 1) ∧
          vz.read memory i = a.read memory (3 * i + 2) := by
  have i0 := isInt32_small 0 (by omega) (by omega)
  have i1 := isInt32_small 1 (by omega) (by omega)
  have i2 := isInt32_small 2 (by omega) (by omega)
  have i3 := isInt32_small 3 (by omega) (by omega)
  have m3 : max (3 : Int) 1 = 3 := by omega
  rw [ConvertPoints_of_supported cfg a k h]
  refine ⟨rfl, ?_, stridedView a k 0 3, stridedView a k 1 3, stridedView a k 2 3, ?_, ?_, ?_,
    ?_, ?_, ?_, ?_, ?_, ?_, ?_, ?_, ?_, ?_⟩
  · rw [ConvertDataArrayToMCArray_strided cfg a k h _ _ i0 i3,
      ConvertDataArrayToMCArray_strided cfg a k h _ _ i1 i3,
      ConvertDataArrayToMCArray_strided cfg a k h _ _ i2 i3]
  · simp [Node.get_set, hxy.symm, hxz.symm]
  · simp [Node.get_set, hyz.symm]
  · simp [Node.get_set]
  · rw [stridedView_numberOfElements, m3]
  · rw [stridedView_numberOfElements, m3]
  · rw [stridedView_numberOfElements, m3]
  · simp [stridedView, viewOf]
  · simp [stridedView, viewOf]
  · simp [stridedView, viewOf]
  · simp [stridedView, viewOf]
  · simp [stridedView, viewOf]
  · simp [stridedView, viewOf]
  · intro i _ _
    have e0 : (0 : Int) + i * max 3 1 = 3 * i := by rw [m3]; ring
    have e1 : (1 : Int) + i * max 3 1 = 3 * i + 1 := by rw [m3]; ring
    have e2 : (2 : Int) + i * max 3 1 = 3 * i + 2 := by rw [m3]; ring
    refine ⟨?_, ?_, ?_, fun memory => ⟨?_, ?_, ?_⟩⟩
    · rw [stridedView_elementAddress, e0]
    · rw [stridedView_elementAddress, e1]
    · rw [stridedView_elementAddress, e2]
    · rw [stridedView_read, e0]
    · rw [stridedView_read, e1]
    · rw [stridedView_read, e2]

theorem sampleFloatArray_supported :
    supportedAs sampleConfig sampleFloatArray .floating := by
  refine ⟨?_, ?_, ?_⟩ <;> decide

/-- Witness of C6 on two interleaved float points: `ConvertPoints` returns
true. -/
theorem C6_ConvertPoints_views_witness :
    supportedAs sampleConfig sampleFloatArray .floating ∧
    (ConvertPoints sampleConfig ⟨some sampleFloatArray⟩ emptyNode "x" "y" "z").1 = true :=
  ⟨sampleFloatArray_supported,
    (C6_ConvertPoints_views sampleConfig sampleFloatArray .floating
      sampleFloatArray_supported emptyNode "x" "y" "z" (by decide) (by decide) (by decide)).1⟩

/-! ## Lemmas on the Topology Encoder -/

theorem ConvertDataArrayToMCArray2_get_of_ne (cfg : BuildConfig) (a : vtkDataArray)
    (n : Node) (path q : String) (h : path ≠ q) :
    (ConvertDataArrayToMCArray2 cfg a n path).2.get q = n.get q :=
  ConvertDataArrayToMCArray_get_of_ne cfg a 0 0 n path q h

theorem setShape_get_of_ne (n : Node) (cell_type : Int) (q : String)
    (h : "topologies/mesh/elements/shape" ≠ q) : (setShape n cell_type).get q = n.get q := by
  unfold setShape
  split_ifs <;> simp [Node.get_set, h]

/-- C2: for every dataset of one of the four kinds on which `FillTopology`
returns true, the tree holds `topologies/mesh/coordset = "coords"`, and
(`coordsets/coords/type`, `topologies/mesh/type`) is (uniform, uniform) for a
uniform grid, (rectilinear, rectilinear) for a rectilinear grid, (explicit,
structured) for a structured grid and (explicit, unstructured) for an
unstructured grid. -/
theorem C2_topology_type_literals (cfg : BuildConfig) (data_set : vtkDataSet) (n : Node)
    (h : (FillTopology cfg data_set n).1 = true) :
    ∃ coordsType meshType : String,
      expectedTypes data_set.grid = some (coordsType, meshType) ∧
      (FillTopology cfg data_set n).2.get "topologies/mesh/coordset" =
        some (.string "coords") ∧
      (FillTopology cfg data_set n).2.get "coordsets/coords/type" =
        some (.string coordsType) ∧
      (FillTopology cfg data_set n).2.get "topologies/mesh/type" =
        some (.string meshType) := by
  obtain ⟨grid, cd, pd, fd⟩ := data_set
  cases grid with
  | imageData d o s =>
    exact ⟨_, _, rfl, by simp [FillTopology, Node.get_set]⟩
  | rectilinearGrid X Y Z =>
    refine ⟨_, _, rfl, ?_⟩
    simp only [FillTopology] at h ⊢
    split_ifs at h ⊢ with hz hy hx
    all_goals first
      | (simp [Node.get_set, ConvertDataArrayToMCArray2_get_of_ne]; done)
      | simp_all
  | structuredGrid p d =>
    refine ⟨_, _, rfl, ?_⟩
    simp only [FillTopology] at h ⊢
    split_ifs at h ⊢ with hp
    · simp [Node.get_set, ConvertPoints_get_of_ne]
    · simp_all
  | unstructuredGrid p c conn =>
    refine ⟨_, _, rfl, ?_⟩
    simp only [FillTopology] at h ⊢
    by_cases hm : IsMixedShape c = true
    · simp [hm] at h
    · have hm' : IsMixedShape c = false := by simpa using hm
      cases p with
      | none =>
        simp [hm', Node.get_set, ConvertDataArrayToMCArray2_get_of_ne, setShape_get_of_ne]
      | some pts =>
        by_cases hp : (ConvertPoints cfg pts
            (n.set "coordsets/coords/type" (.string "explicit")) "coordsets/coords/values/x"
            "coordsets/coords/values/y" "coordsets/coords/values/z").1 = true
        · simp [hm', hp, Node.get_set, ConvertDataArrayToMCArray2_get_of_ne,
            setShape_get_of_ne, ConvertPoints_get_of_ne]
        · simp [hm', hp] at h
  | otherDataSet => simp [FillTopology] at h

/-- Witness of C2 on a structured grid of two float points. -/
theorem C2_topology_type_literals_witness :
    (FillTopology sampleConfig sampleStructuredGrid emptyNode).1 = true ∧
    ∃ coordsType meshType : String,
      expectedTypes sampleStructuredGrid.grid = some (coordsType, meshType) ∧
      (FillTopology sampleConfig sampleStructuredGrid emptyNode).2.get
        "topologies/mesh/coordset" = some (.string "coords") ∧
      (FillTopology sampleConfig sampleStructuredGrid emptyNode).2.get
        "coordsets/coords/type" = some (.string coordsType) ∧
      (FillTopology sampleConfig sampleStructuredGrid emptyNode).2.get
        "topologies/mesh/type" = some (.string meshType) :=
  ⟨by decide, C2_topology_type_literals sampleConfig sampleStructuredGrid emptyNode (by decide)⟩

/-- `FillTopology` writes only at the paths of `topologyPaths`. -/
theorem FillTopology_get_of_not_mem (cfg : BuildConfig) (data_set : vtkDataSet) (n : Node)
    (q : String) (hq : q ∉ topologyPaths) : (FillTopology cfg data_set n).2.get q = n.get q := by
  have hne : ∀ p ∈ topologyPaths, p ≠ q := fun p hp e => hq (e ▸ hp)
  have a1 := hne "coordsets/coords/type" (by decide)
  have a2 := hne "coordsets/coords/dims/i" (by decide)
  have a3 := hne "coordsets/coords/dims/j" (by decide)
  have a4 := hne "coordsets/coords/dims/k" (by decide)
  have a5 := hne "coordsets/coords/origin/x" (by decide)
  have a6 := hne "coordsets/coords/origin/y" (by decide)
  have a7 := hne "coordsets/coords/origin/z" (by decide)
  have a8 := hne "coordsets/coords/spacing/dx" (by decide)
  have a9 := hne "coordsets/coords/spacing/dy" (by decide)
  have a10 := hne "coordsets/coords/spacing/dz" (by decide)
  have a11 := hne "coordsets/coords/values/x" (by decide)
  have a12 := hne "coordsets/coords/values/y" (by decide)
  have a13 := hne "coordsets/coords/values/z" (by decide)
  have a14 := hne "topologies/mesh/type" (by decide)
  have a15 := hne "topologies/mesh/coordset" (by decide)
  have a16 := hne "topologies/mesh/elements/dims/i" (by decide)
  have a17 := hne "topologies/mesh/elements/dims/j" (by decide)
  have a18 := hne "topologies/mesh/elements/dims/k" (by decide)
  have a19 := hne "topologies/mesh/elements/shape" (by decide)
  have a20 := hne "topologies/mesh/elements/connectivity" (by decide)
  obtain ⟨grid, cd, pd, fd⟩ := data_set
  cases grid with
  | imageData d o s =>
    simp [FillTopology, Node.get_set, a1, a2, a3, a4, a5, a6, a7, a8, a9, a10, a14, a15]
  | rectilinearGrid X Y Z =>
    simp only [FillTopology]
    split_ifs <;>
      simp [Node.get_set, a1, a14, a15, ConvertDataArrayToMCArray2_get_of_ne _ _ _ _ _ a11,
        ConvertDataArrayToMCArray2_get_of_ne _ _ _ _ _ a12,
        ConvertDataArrayToMCArray2_get_of_ne _ _ _ _ _ a13]
  | structuredGrid p d =>
    simp only [FillTopology]
    split_ifs <;>
      simp [Node.get_set, a1, a14, a15, a16, a17, a18,
        ConvertPoints_get_of_ne _ _ _ _ _ _ _ a11 a12 a13]
  | unstructuredGrid p c conn =>
    simp only [FillTopology]
    cases p with
    | none =>
      split_ifs <;>
        simp [Node.get_set, a1, a11, a12, a13, a14, a15,
          ConvertDataArrayToMCArray2_get_of_ne _ _ _ _ _ a20, setShape_get_of_ne _ _ _ a19]
    | some pts =>
      split_ifs <;>
        simp [Node.get_set, a1, a14, a15,
          ConvertDataArrayToMCArray2_get_of_ne _ _ _ _ _ a20, setShape_get_of_ne _ _ _ a19,
          ConvertPoints_get_of_ne _ _ _ _ _ _ _ a11 a12 a13]
  | otherDataSet => rfl

/-- A path under `fields/` is none of the paths of `topologyPaths`. -/
theorem fields_not_mem_topologyPaths (rest : String) : "fields/" ++ rest ∉ topologyPaths := by
  intro hmem
  simp only [topologyPaths, List.mem_cons, List.mem_singleton, List.mem_nil_iff,
    or_false] at hmem
  rcases hmem with h | h | h | h | h | h | h | h | h | h | h | h | h | h | h | h | h | h | h | h
  all_goals
    have hd := congrArg String.data h
    simp at hd

/-- `FillTopology` writes nothing under `fields/`. -/
theorem FillTopology_get_fields (cfg : BuildConfig) (data_set : vtkDataSet) (n : Node)
    (rest : String) :
    (FillTopology cfg data_set n).2.get ("fields/" ++ rest) = n.get ("fields/" ++ rest) :=
  FillTopology_get_of_not_mem cfg data_set n _ (fields_not_mem_topologyPaths rest)

/-! ## The orchestrator -/

/-- C1: for every data object and every initial tree, `FillConduitNode`
returns true if and only if the object is a dataset, `FillTopology` returns
true on it and `FillFields` then returns true on the tree `FillTopology`
produced; when the object is not a dataset the tree is left unchanged; when
`FillTopology` returns false `FillFields` is not run: the result is exactly
that of `FillTopology`, and every path under `fields/` holds what it held in
the initial tree. -/
theorem C1_FillConduitNode_contract (cfg : BuildConfig) (data_object : vtkDataObject)
    (tree : Node) :
    ((FillConduitNode cfg data_object tree).1 = true ↔
      ∃ data_set, data_object = .dataSet data_set ∧
        (FillTopology cfg data_set tree).1 = true ∧
        (FillFields cfg data_set (FillTopology cfg data_set tree).2).1 = true) ∧
    ((∀ data_set, data_object ≠ .dataSet data_set) →
      FillConduitNode cfg data_object tree = (false, tree)) ∧
    (∀ data_set, data_object = .dataSet data_set →
      (FillTopology cfg data_set tree).1 = false →
        FillConduitNode cfg data_object tree = (false, (FillTopology cfg data_set tree).2) ∧
        ∀ rest : String, (FillConduitNode cfg data_object tree).2.get ("fields/" ++ rest) =
          tree.get ("fields/" ++ rest)) := by
  cases data_object with
  | notDataSet =>
    refine ⟨?_, fun _ => rfl, ?_⟩
    · simp [FillConduitNode]
    · intro data_set h
      cases h
  | dataSet ds =>
    refine ⟨?_, ?_, ?_⟩
    · simp only [FillConduitNode, FillConduitNodeOfDataSet]
      constructor
      · intro h
        refine ⟨ds, rfl, ?_⟩
        by_cases ht : (FillTopology cfg ds tree).1 = true
        · simpa [ht] using h
        · simp [ht] at h
      · rintro ⟨ds', hds, ht, hf⟩
        cases hds
        simpa [ht] using hf
    · intro h
      exact absurd rfl (h ds)
    · intro ds' hds ht
      cases hds
      have hres : FillConduitNode cfg (.dataSet ds) tree = FillTopology cfg ds tree := by
        simp [FillConduitNode, FillConduitNodeOfDataSet, ht]
      refine ⟨?_, fun rest => ?_⟩
      · rw [hres]
        exact Prod.ext ht rfl
      · rw [hres]
        exact FillTopology_get_fields cfg ds tree rest

/-- Witness of C1 on a mixed-shape grid, where `FillTopology` returns false:
the orchestrator returns false with the tree untouched. -/
theorem C1_FillConduitNode_contract_witness :
    (FillTopology sampleConfig sampleMixedGrid emptyNode).1 = false ∧
    FillConduitNode sampleConfig (.dataSet sampleMixedGrid) emptyNode =
      (false, (FillTopology sampleConfig sampleMixedGrid emptyNode).2) :=
  ⟨by decide,
    ((C1_FillConduitNode_contract sampleConfig (.dataSet sampleMixedGrid) emptyNode).2.2
      sampleMixedGrid rfl (by decide)).1⟩

/-! ## Mixed-shape rejection -/

/-- `IsMixedShape` holds exactly when two cells have different types. -/
theorem IsMixedShape_iff (cellTypes : List Int) :
    IsMixedShape cellTypes = true ↔ ∃ a ∈ cellTypes, ∃ b ∈ cellTypes, a ≠ b := by
  unfold IsMixedShape GetCellTypes
  rw [decide_eq_true_iff]
  have hnd : cellTypes.dedup.Nodup := List.nodup_dedup cellTypes
  constructor
  · intro hlen
    match hl : cellTypes.dedup, hlen, hnd with
    | x :: y :: rest, _, hnd' =>
      have hx : x ∈ cellTypes := List.mem_dedup.mp (by rw [hl]; simp)
      have hy : y ∈ cellTypes := List.mem_dedup.mp (by rw [hl]; simp)
      refine ⟨x, hx, y, hy, ?_⟩
      intro hxy
      subst hxy
      simp at hnd'
  · rintro ⟨a, ha, b, hb, hab⟩
    have ha' : a ∈ cellTypes.dedup := List.mem_dedup.mpr ha
    have hb' : b ∈ cellTypes.dedup := List.mem_dedup.mpr hb
    match hl : cellTypes.dedup, ha', hb' with
    | [], ha'', _ => simp at ha''
    | [x], ha'', hb'' =>
      simp at ha'' hb''
      exact absurd (ha''.trans hb''.symm) hab
    | x :: y :: rest, _, _ => simp

/-- C3: for every unstructured grid whose cells have two or more distinct
shape kinds, `FillTopology` and `FillConduitNode` return false and write
nothing: the tree after the call equals the tree before it. -/
theorem C3_mixed_shape_rejected (cfg : BuildConfig) (data_set : vtkDataSet)
    (points : Option vtkPoints) (cellTypes : List Int) (connectivityArray : vtkDataArray)
    (hgrid : data_set.grid = .unstructuredGrid points cellTypes connectivityArray)
    (a b : Int) (ha : a ∈ cellTypes) (hb : b ∈ cellTypes) (hab : a ≠ b) (tree : Node) :
    FillTopology cfg data_set tree = (false, tree) ∧
    FillConduitNode cfg (.dataSet data_set) tree = (false, tree) := by
  have hm : IsMixedShape cellTypes = true := (IsMixedShape_iff cellTypes).mpr ⟨a, ha, b, hb, hab⟩
  have ht : FillTopology cfg data_set tree = (false, tree) := by
    simp [FillTopology, hgrid, hm]
  refine ⟨ht, ?_⟩
  simp [FillConduitNode, FillConduitNodeOfDataSet, ht]

/-- Witness of C3 on a grid with one triangle and one quad. -/
theorem C3_mixed_shape_rejected_witness :
    VTK_TRIANGLE ∈ [VTK_TRIANGLE, VTK_QUAD] ∧ VTK_QUAD ∈ [VTK_TRIANGLE, VTK_QUAD] ∧
    VTK_TRIANGLE ≠ VTK_QUAD ∧
    FillTopology sampleConfig sampleMixedGrid emptyNode = (false, emptyNode) ∧
    FillConduitNode sampleConfig (.dataSet sampleMixedGrid) emptyNode = (false, emptyNode) :=
  ⟨by decide, by decide, by decide,
    C3_mixed_shape_rejected sampleConfig sampleMixedGrid _ _ _ rfl VTK_TRIANGLE VTK_QUAD
      (by decide) (by decide) (by decide) emptyNode⟩

/-! ## Rectilinear grids -/

/-- The view with offset 0 and stride 1 aliases the whole array. -/
theorem stridedView_whole (a : vtkDataArray) (k : ElementKind)
    (hw : widthSupported k a.GetDataTypeSize = true) :
    isWholeArrayViewOf (stridedView a k 0 1) a := by
  refine ⟨rfl, (widthSupported_toNat k _ hw).2, ?_, ?_, ?_, ?_⟩
  · simp [stridedView_numberOfElements]
  · simp [stridedView, viewOf]
  · simp [stridedView, viewOf]
  · intro i _ _
    have e : (0 : Int) + i * max 1 1 = i := by simp
    refine ⟨?_, fun memory => ?_⟩
    · rw [stridedView_elementAddress, e]
    · rw [stridedView_read, e]

/-- Closed form of `FillTopology` on a rectilinear grid whose three
coordinate arrays have supported encodings. -/
theorem FillTopology_rectilinear (cfg : BuildConfig) (data_set : vtkDataSet)
    (X Y Z : vtkDataArray) (kx ky kz : ElementKind)
    (hgrid : data_set.grid = .rectilinearGrid X Y Z)
    (hx : supportedAs cfg X kx) (hy : supportedAs cfg Y ky) (hz : supportedAs cfg Z kz)
    (n : Node) :
    FillTopology cfg data_set n =
      (true, (((((n.set "coordsets/coords/type" (.string "rectilinear")).set
        "coordsets/coords/values/x" (.externalView (stridedView X kx 0 1))).set
        "coordsets/coords/values/y" (.externalView (stridedView Y ky 0 1))).set
        "coordsets/coords/values/z" (.externalView (stridedView Z kz 0 1))).set
        "topologies/mesh/type" (.string "rectilinear")).set
        "topologies/mesh/coordset" (.string "coords")) := by
  simp only [FillTopology, hgrid, ConvertDataArrayToMCArray2_strided cfg X kx hx,
    ConvertDataArrayToMCArray2_strided cfg Y ky hy,
    ConvertDataArrayToMCArray2_strided cfg Z kz hz, if_true]

/-- C7: for every rectilinear grid whose X, Y and Z coordinate arrays have
supported encodings, `FillTopology` returns true and
`coordsets/coords/values/x`, `/y`, `/z` hold views onto the X, Y and Z array
respectively: same base address, element count equal to that array's value
count, and view element `i` equal to source element `i` for every `i` in
range. -/
theorem C7_rectilinear_round_trip (cfg : BuildConfig) (data_set : vtkDataSet)
    (X Y Z : vtkDataArray) (kx ky kz : ElementKind)
    (hgrid : data_set.grid = .rectilinearGrid X Y Z)
    (hx : supportedAs cfg X kx) (hy : supportedAs cfg Y ky) (hz : supportedAs cfg Z kz)
    (n : Node) :
    (FillTopology cfg data_set n).1 = true ∧
    ∃ vx vy vz : ExternalView,
      (FillTopology cfg data_set n).2.get "coordsets/coords/values/x" =
        some (.externalView vx) ∧
      (FillTopology cfg data_set n).2.get "coordsets/coords/values/y" =
        some (.externalView vy) ∧
      (FillTopology cfg data_set n).2.get "coordsets/coords/values/z" =
        some (.externalView vz) ∧
      vx.kind = kx ∧ vy.kind = ky ∧ vz.kind = kz ∧
      isWholeArrayViewOf vx X ∧ isWholeArrayViewOf vy Y ∧ isWholeArrayViewOf vz Z := by
  rw [FillTopology_rectilinear cfg data_set X Y Z kx ky kz hgrid hx hy hz]
  refine ⟨rfl, stridedView X kx 0 1, stridedView Y ky 0 1, stridedView Z kz 0 1, ?_, ?_, ?_,
    rfl, rfl, rfl, stridedView_whole X kx hx.2.1, stridedView_whole Y ky hy.2.1,
    stridedView_whole Z kz hz.2.1⟩
  · simp [Node.get_set]
  · simp [Node.get_set]
  · simp [Node.get_set]

/-- Witness of C7 on a grid with a double, a float and a short axis. -/
theorem C7_rectilinear_round_trip_witness :
    supportedAs sampleConfig sampleDoubleArray .floating ∧
    supportedAs sampleConfig sampleFloatArray .floating ∧
    supportedAs sampleConfig sampleShortArray .signedInt ∧
    (FillTopology sampleConfig sampleRectilinearGrid emptyNode).1 = true :=
  ⟨sampleDoubleArray_supported, sampleFloatArray_supported, sampleShortArray_supported,
    (C7_rectilinear_round_trip sampleConfig sampleRectilinearGrid sampleDoubleArray
      sampleFloatArray sampleShortArray .floating .floating .signedInt rfl
      sampleDoubleArray_supported sampleFloatArray_supported sampleShortArray_supported
      emptyNode).1⟩

/-! ## Lemmas on the Field Encoder -/

/-- The field loop writes only under `fields/`. -/
theorem FillFieldsLoop_get_of_not_fields (cfg : BuildConfig) (association : String)
    (arrays : List vtkDataArray) (n : Node) (q : String)
    (hq : ∀ rest : String, "fields/" ++ rest ≠ q) :
    (FillFieldsLoop cfg association arrays n).2.get q = n.get q := by
  induction arrays generalizing n with
  | nil => rfl
  | cons a rest ih =>
    unfold FillFieldsLoop
    cases hname : a.GetName with
    | none => simpa using ih n
    | some name =>
      have h1 := hq (name ++ "/association")
      have h2 := hq (name ++ "/topology")
      have h3 := hq (name ++ "/volume_dependent")
      have h4 := hq (name ++ "/values")
      rw [← String.append_assoc] at h1 h2 h3 h4
      simp only
      split_ifs
      · rw [ih, ConvertDataArrayToMCArray2_get_of_ne _ _ _ _ _ h4]
        simp [Node.get_set, h1, h2, h3]
      · rw [ConvertDataArrayToMCArray2_get_of_ne _ _ _ _ _ h4]
        simp [Node.get_set, h1, h2, h3]

/-- `FillFields` writes only under `fields/`. -/
theorem FillFields_get_of_not_fields (cfg : BuildConfig) (data_set : vtkDataSet) (n : Node)
    (q : String) (hq : ∀ rest : String, "fields/" ++ rest ≠ q) :
    (FillFields cfg data_set n).2.get q = n.get q := by
  obtain ⟨grid, cd, pd, fd⟩ := data_set
  unfold FillFields FillFieldsOfFieldData
  cases cd <;> cases pd <;> cases fd <;> simp only <;> split_ifs <;>
    simp [FillFieldsLoop_get_of_not_fields _ _ _ _ _ hq]

/-- The field loop succeeds when every named array has a supported encoding. -/
theorem FillFieldsLoop_of_supported (cfg : BuildConfig) (association : String)
    (arrays : List vtkDataArray) (n : Node)
    (h : ∀ a ∈ arrays, a.GetName ≠ none → supportedEncoding cfg a) :
    (FillFieldsLoop cfg association arrays n).1 = true := by
  induction arrays generalizing n with
  | nil => rfl
  | cons a rest ih =>
    have hrest : ∀ b ∈ rest, b.GetName ≠ none → supportedEncoding cfg b :=
      fun b hb => h b (List.mem_cons_of_mem a hb)
    unfold FillFieldsLoop
    cases hname : a.GetName with
    | none => simpa using ih n hrest
    | some name =>
      obtain ⟨k, hk⟩ := h a (List.mem_cons_self a rest) (by simp [hname])
      simp only [ConvertDataArrayToMCArray2_strided cfg a k hk, if_true]
      exact ih _ hrest

/-- `FillFields` succeeds when every named cell and point array has a supported
encoding. -/
theorem FillFields_of_supported (cfg : BuildConfig) (data_set : vtkDataSet) (n : Node)
    (hcell : ∀ fd, data_set.GetCellData = some fd →
      ∀ a ∈ fd.arrays, a.GetName ≠ none → supportedEncoding cfg a)
    (hpoint : ∀ fd, data_set.GetPointData = some fd →
      ∀ a ∈ fd.arrays, a.GetName ≠ none → supportedEncoding cfg a) :
    (FillFields cfg data_set n).1 = true := by
  obtain ⟨grid, cd, pd, fd⟩ := data_set
  unfold FillFields FillFieldsOfFieldData
  cases cd with
  | none =>
    cases pd with
    | none => cases fd <;> simp
    | some p =>
      have hp := FillFieldsLoop_of_supported cfg "vertex" p.arrays n (hpoint p rfl)
      cases fd <;> simp [hp]
  | some c =>
    have hc := FillFieldsLoop_of_supported cfg "element" c.arrays n (hcell c rfl)
    cases pd with
    | none => cases fd <;> simp [hc]
    | some p =>
      have hp := FillFieldsLoop_of_supported cfg "vertex" p.arrays
        (FillFieldsLoop cfg "element" c.arrays n).2 (hpoint p rfl)
      cases fd <;> simp [hc, hp]

/-! ## Unstructured grids without cells -/

/-- A coordinate value path is not under `fields/`. -/
theorem coordinateValuePaths_not_fields (p : String) (hp : p ∈ coordinateValuePaths)
    (rest : String) : "fields/" ++ rest ≠ p := by
  intro h
  simp only [coordinateValuePaths, List.mem_cons, List.mem_singleton, List.mem_nil_iff,
    or_false] at hp
  rcases hp with rfl | rfl | rfl
  all_goals
    have hd := congrArg String.data h
    simp at hd

/-- C4, counterexample: an unstructured grid with zero cells that carries two
points. `FillConduitNode` returns true and the three coordinate entries are
present, but each reports two elements, not zero. -/
theorem C4_zero_cells_counterexample :
    samplePointsOnlyGrid.grid =
      .unstructuredGrid (some ⟨some sampleFloatArray⟩) [] sampleEmptyConnectivity ∧
    (FillConduitNode sampleConfig (.dataSet samplePointsOnlyGrid) emptyNode).1 = true ∧
    ∀ p ∈ coordinateValuePaths,
      ((FillConduitNode sampleConfig (.dataSet samplePointsOnlyGrid) emptyNode).2.get p).map
        Leaf.numberOfElements = some 2 := by
  decide

/-- C4, amended: for every unstructured grid with zero cells whose
connectivity array and named cell and point arrays have supported encodings:
when it carries no points object, `FillConduitNode` returns true and
`coordsets/coords/values/x`, `/y`, `/z` are present and each reports zero
elements; when it carries a point array of supported encoding with `T`
values, `FillConduitNode` returns true and each of the three entries reports
`T / 3` elements. -/
theorem C4_zero_cells_amended (cfg : BuildConfig) (data_set : vtkDataSet)
    (points : Option vtkPoints) (connectivityArray : vtkDataArray)
    (hgrid : data_set.grid = .unstructuredGrid points [] connectivityArray)
    (hconn : supportedEncoding cfg connectivityArray)
    (hcell : ∀ fd, data_set.GetCellData = some fd →
      ∀ a ∈ fd.arrays, a.GetName ≠ none → supportedEncoding cfg a)
    (hpoint : ∀ fd, data_set.GetPointData = some fd →
      ∀ a ∈ fd.arrays, a.GetName ≠ none → supportedEncoding cfg a)
    (tree : Node) :
    (points = none →
      (FillConduitNode cfg (.dataSet data_set) tree).1 = true ∧
      ∀ p ∈ coordinateValuePaths, ∃ leaf,
        (FillConduitNode cfg (.dataSet data_set) tree).2.get p = some leaf ∧
        leaf.numberOfElements = 0) ∧
    (∀ a k, points = some ⟨some a⟩ → supportedAs cfg a k →
      (FillConduitNode cfg (.dataSet data_set) tree).1 = true ∧
      ∀ p ∈ coordinateValuePaths, ∃ leaf,
        (FillConduitNode cfg (.dataSet data_set) tree).2.get p = some leaf ∧
        leaf.numberOfElements = (a.GetNumberOfValues : Int) / 3) := by
  obtain ⟨kc, hkc⟩ := hconn
  have hmixed : IsMixedShape [] = false := by decide
  have hfields : ∀ n, (FillFields cfg data_set n).1 = true :=
    fun n => FillFields_of_supported cfg data_set n hcell hpoint
  have m3 : max (3 : Int) 1 = 3 := by omega
  constructor
  · intro hp
    subst hp
    have ht : (FillTopology cfg data_set tree).1 = true := by
      simp [FillTopology, hgrid, hmixed, ConvertDataArrayToMCArray2_strided cfg _ kc hkc]
    refine ⟨?_, fun p hp => ⟨.float32Array [], ?_, rfl⟩⟩
    · simp [FillConduitNode, FillConduitNodeOfDataSet, ht, hfields]
    · simp only [FillConduitNode, FillConduitNodeOfDataSet, ht, if_true]
      rw [FillFields_get_of_not_fields cfg data_set _ p
        (coordinateValuePaths_not_fields p hp)]
      simp only [coordinateValuePaths, List.mem_cons, List.mem_singleton, List.mem_nil_iff,
        or_false] at hp
      rcases hp with rfl | rfl | rfl <;>
        simp [FillTopology, hgrid, hmixed, ConvertDataArrayToMCArray2_strided cfg _ kc hkc,
          setShape, VTK_VERTEX, VTK_HEXAHEDRON, VTK_TETRA, VTK_QUAD, VTK_TRIANGLE, VTK_LINE,
          Node.get_set]
  · intro a k hp hk
    subst hp
    have ht : (FillTopology cfg data_set tree).1 = true := by
      simp [FillTopology, hgrid, hmixed, ConvertDataArrayToMCArray2_strided cfg _ kc hkc,
        ConvertPoints_of_supported cfg a k hk]
    refine ⟨?_, fun p hp => ?_⟩
    · simp [FillConduitNode, FillConduitNodeOfDataSet, ht, hfields]
    · have hget : (FillConduitNode cfg (.dataSet data_set) tree).2.get p =
          (FillTopology cfg data_set tree).2.get p := by
        simp only [FillConduitNode, FillConduitNodeOfDataSet, ht, if_true]
        exact FillFields_get_of_not_fields cfg data_set _ p
          (coordinateValuePaths_not_fields p hp)
      have hcount : ∀ o, (Leaf.externalView (stridedView a k o 3)).numberOfElements =
          (a.GetNumberOfValues : Int) / 3 := by
        intro o
        show (stridedView a k o 3).numberOfElements = _
        rw [stridedView_numberOfElements, m3]
      rw [hget]
      simp only [coordinateValuePaths, List.mem_cons, List.mem_singleton, List.mem_nil_iff,
        or_false] at hp
      rcases hp with rfl | rfl | rfl
      · refine ⟨.externalView (stridedView a k 0 3), ?_, hcount 0⟩
        simp [FillTopology, hgrid, hmixed, ConvertDataArrayToMCArray2_strided cfg _ kc hkc,
          ConvertPoints_of_supported cfg a k hk, setShape, VTK_VERTEX, VTK_HEXAHEDRON,
          VTK_TETRA, VTK_QUAD, VTK_TRIANGLE, VTK_LINE, Node.get_set]
      · refine ⟨.externalView (stridedView a k 1 3), ?_, hcount 1⟩
        simp [FillTopology, hgrid, hmixed, ConvertDataArrayToMCArray2_strided cfg _ kc hkc,
          ConvertPoints_of_supported cfg a k hk, setShape, VTK_VERTEX, VTK_HEXAHEDRON,
          VTK_TETRA, VTK_QUAD, VTK_TRIANGLE, VTK_LINE, Node.get_set]
      · refine ⟨.externalView (stridedView a k 2 3), ?_, hcount 2⟩
        simp [FillTopology, hgrid, hmixed, ConvertDataArrayToMCArray2_strided cfg _ kc hkc,
          ConvertPoints_of_supported cfg a k hk, setShape, VTK_VERTEX, VTK_HEXAHEDRON,
          VTK_TETRA, VTK_QUAD, VTK_TRIANGLE, VTK_LINE, Node.get_set]

theorem sampleEmptyConnectivity_supported :
    supportedEncoding sampleConfig sampleEmptyConnectivity := by
  refine ⟨.signedInt, ?_, ?_, ?_⟩ <;> decide

/-- Witness of C4 (amended) on the grid with no points object and no cells. -/
theorem C4_zero_cells_amended_witness :
    sampleEmptyGrid.grid = .unstructuredGrid none [] sampleEmptyConnectivity ∧
    supportedEncoding sampleConfig sampleEmptyConnectivity ∧
    (FillConduitNode sampleConfig (.dataSet sampleEmptyGrid) emptyNode).1 = true ∧
    ∀ p ∈ coordinateValuePaths, ∃ leaf,
      (FillConduitNode sampleConfig (.dataSet sampleEmptyGrid) emptyNode).2.get p =
        some leaf ∧ leaf.numberOfElements = 0 :=
  ⟨rfl, sampleEmptyConnectivity_supported,
    (C4_zero_cells_amended sampleConfig sampleEmptyGrid none sampleEmptyConnectivity rfl
      sampleEmptyConnectivity_supported
      (fun fd hfd a ha => by
        have e : fd = ⟨[]⟩ := (Option.some.inj hfd).symm
        subst e
        simp at ha)
      (fun fd hfd a ha => by
        have e : fd = ⟨[]⟩ := (Option.some.inj hfd).symm
        subst e
        simp at ha)
      emptyNode).1 rfl⟩

/-! ## Unsupported encodings -/

/-- When none of the three kind tests holds the view builder returns true
and writes nothing. -/
theorem ConvertDataArrayToMCArray_unclassified (cfg : BuildConfig) (a : vtkDataArray)
    (h : elementKind cfg a.GetDataType = none) (offset stride : Int) (n : Node)
    (path : String) : ConvertDataArrayToMCArray cfg a offset stride n path = (true, n) := by
  rw [ConvertDataArrayToMCArray_eq, h]

/-- On a classified kind with an unsupported width or an unrecognised layout
the view builder returns false and writes nothing. -/
theorem ConvertDataArrayToMCArray_unsupported (cfg : BuildConfig) (a : vtkDataArray)
    (k : ElementKind) (hk : elementKind cfg a.GetDataType = some k)
    (h : widthSupported k a.GetDataTypeSize = false ∨ layoutRecognized a.GetArrayType = false)
    (offset stride : Int) (n : Node) (path : String) :
    ConvertDataArrayToMCArray cfg a offset stride n path = (false, n) := by
  rw [ConvertDataArrayToMCArray_eq, hk]
  rcases h with h | h <;> simp [h]

/-- No kind test holds for the type tag `VTK_BIT`, in either build. -/
theorem elementKind_VTK_BIT (cfg : BuildConfig) : elementKind cfg VTK_BIT = none := by
  obtain ⟨c, l⟩ := cfg
  cases c <;> cases l <;> decide

/-- C8, the code at the failing input: a bit array satisfies none of the
three kind tests, yet in both builds and for every offset and stride the view
builder returns true (not false) and leaves the tree as it was. -/
theorem C8_bit_array_returns_true (cfg : BuildConfig) (offset stride : Int) (n : Node)
    (path : String) :
    IsSignedIntegralType cfg sampleBitArray.GetDataType = false ∧
    IsUnsignedIntegralType cfg sampleBitArray.GetDataType = false ∧
    IsFloatType sampleBitArray.GetDataType = false ∧
    ConvertDataArrayToMCArray cfg sampleBitArray offset stride n path = (true, n) := by
  refine ⟨?_, ?_, ?_, ConvertDataArrayToMCArray_unclassified cfg sampleBitArray
    (elementKind_VTK_BIT cfg) offset stride n path⟩
  · obtain ⟨c, l⟩ := cfg
    cases c <;> cases l <;> decide
  · obtain ⟨c, l⟩ := cfg
    cases c <;> cases l <;> decide
  · decide

/-- C9, the code at the failing input: the layout tag of a bit array is
neither interleaved nor planar, yet the whole-array view builder returns
true, and `FillConduitNode` returns true on a uniform grid that carries the
array as a named point field, with `fields/b/association` written and no
view at `fields/b/values`. -/
theorem C9_unrecognized_layout_returns_true :
    layoutRecognized sampleBitArray.GetArrayType = false ∧
    ConvertDataArrayToMCArray2 sampleConfig sampleBitArray emptyNode "fields/b/values" =
      (true, emptyNode) ∧
    (FillConduitNode sampleConfig (.dataSet sampleImageWithBitField) emptyNode).1 = true ∧
    (FillConduitNode sampleConfig (.dataSet sampleImageWithBitField) emptyNode).2.get
      "fields/b/association" = some (.string "vertex") ∧
    (FillConduitNode sampleConfig (.dataSet sampleImageWithBitField) emptyNode).2.get
      "fields/b/values" = none := by
  decide

/-- A zero-cell grid without points on which `FillConduitNode` returns false:
its only cell array has a layout without a view constructor, so the Field
Encoder fails after the empty coordinate sequences were written. -/
theorem zero_cells_unsupported_field_fails :
    (FillTopology sampleConfig sampleEmptyGridWithScaledField emptyNode).1 = true ∧
    (FillConduitNode sampleConfig (.dataSet sampleEmptyGridWithScaledField) emptyNode).1 =
      false := by
  decide

/-! ## Layout independence -/

/-- C11: for any two arrays that agree on type tag, byte width, total value
count and base buffer, one with the interleaved (AoS) and the other with the
planar (SoA) layout tag, and for every offset and stride, the view builder
returns the same boolean and leaves the same tree, hence sets the identical
view (element type, count, byte offset, byte stride) at its node. -/
theorem C11_layout_independence (cfg : BuildConfig) (a b : vtkDataArray)
    (htype : a.GetDataType = b.GetDataType) (hsize : a.GetDataTypeSize = b.GetDataTypeSize)
    (hcount : a.GetNumberOfValues = b.GetNumberOfValues)
    (hbuffer : a.GetVoidPointer = b.GetVoidPointer)
    (ha : a.GetArrayType = AoSDataArrayTemplate) (hb : b.GetArrayType = SoADataArrayTemplate)
    (offset stride : Int) (n : Node) (path : String) :
    (ConvertDataArrayToMCArray cfg a offset stride n path).1 =
      (ConvertDataArrayToMCArray cfg b offset stride n path).1 ∧
    (ConvertDataArrayToMCArray cfg a offset stride n path).2 =
      (ConvertDataArrayToMCArray cfg b offset stride n path).2 ∧
    (ConvertDataArrayToMCArray cfg a offset stride n path).2.get path =
      (ConvertDataArrayToMCArray cfg b offset stride n path).2.get path := by
  have hla : layoutRecognized a.GetArrayType = true := by rw [ha]; decide
  have hlb : layoutRecognized b.GetArrayType = true := by rw [hb]; decide
  have heq : ConvertDataArrayToMCArray cfg a offset stride n path =
      ConvertDataArrayToMCArray cfg b offset stride n path := by
    rw [ConvertDataArrayToMCArray_eq, ConvertDataArrayToMCArray_eq]
    simp only [viewOf, htype, hsize, hcount, hbuffer, hla, hlb]
  rw [heq]
  exact ⟨rfl, rfl, rfl⟩

/-- Witness of C11 on six floats in the two layouts, offset 1 and stride 3:
both calls set the same two-element view. -/
theorem C11_layout_independence_witness :
    sampleFloatArray.GetArrayType = AoSDataArrayTemplate ∧
    sampleFloatArrayPlanar.GetArrayType = SoADataArrayTemplate ∧
    (ConvertDataArrayToMCArray sampleConfig sampleFloatArray 1 3 emptyNode "v").2.get "v" =
      (ConvertDataArrayToMCArray sampleConfig sampleFloatArrayPlanar 1 3 emptyNode "v").2.get
        "v" :=
  ⟨rfl, rfl,
    (C11_layout_independence sampleConfig sampleFloatArray sampleFloatArrayPlanar rfl rfl rfl
      rfl rfl rfl 1 3 emptyNode "v").2.2⟩

/-! ## Uniform grids -/

/-- An external view read after a scalar assignment was there before it. -/
theorem Node.get_set_view (n : Node) (p : String) (leaf : Leaf)
    (hleaf : ∀ w : ExternalView, leaf ≠ .externalView w) (q : String) (v : ExternalView)
    (h : (n.set p leaf).get q = some (.externalView v)) : n.get q = some (.externalView v) := by
  rw [Node.get_set] at h
  split_ifs at h with hpq
  · exact absurd (Option.some.inj h) (hleaf v)
  · exact h

/-- Closed form of `FillTopology` on a uniform grid: twelve scalar
assignments and no call of the view builder. -/
theorem FillTopology_imageData (cfg : BuildConfig) (data_set : vtkDataSet)
    (dimensions : Int × Int × Int) (origin spacing : Double × Double × Double)
    (hgrid : data_set.grid = .imageData dimensions origin spacing) (n : Node) :
    FillTopology cfg data_set n =
      (true, (((((((((((n.set "coordsets/coords/type" (.string "uniform")).set
        "coordsets/coords/dims/i" (.int32 dimensions.1)).set
        "coordsets/coords/dims/j" (.int32 dimensions.2.1)).set
        "coordsets/coords/dims/k" (.int32 dimensions.2.2)).set
        "coordsets/coords/origin/x" (.float64 origin.1)).set
        "coordsets/coords/origin/y" (.float64 origin.2.1)).set
        "coordsets/coords/origin/z" (.float64 origin.2.2)).set
        "coordsets/coords/spacing/dx" (.float64 spacing.1)).set
        "coordsets/coords/spacing/dy" (.float64 spacing.2.1)).set
        "coordsets/coords/spacing/dz" (.float64 spacing.2.2)).set
        "topologies/mesh/type" (.string "uniform")).set
        "topologies/mesh/coordset" (.string "coords")) := by
  simp only [FillTopology, hgrid]

/-- C12: for every uniform grid, `FillTopology` returns true and the tree
holds at `coordsets/coords/dims/{i,j,k}`, `origin/{x,y,z}` and
`spacing/{dx,dy,dz}` the grid's three dimensions, origin and spacing,
component for component and in that order; the view builder is not called:
the result is the same in every build configuration and every external view
in the tree after the call was in the tree before it, at the same path. -/
theorem C12_uniform_grid (cfg : BuildConfig) (data_set : vtkDataSet)
    (dimensions : Int × Int × Int) (origin spacing : Double × Double × Double)
    (hgrid : data_set.grid = .imageData dimensions origin spacing) (n : Node) :
    (FillTopology cfg data_set n).1 = true ∧
    (FillTopology cfg data_set n).2.get "coordsets/coords/dims/i" =
      some (.int32 dimensions.1) ∧
    (FillTopology cfg data_set n).2.get "coordsets/coords/dims/j" =
      some (.int32 dimensions.2.1) ∧
    (FillTopology cfg data_set n).2.get "coordsets/coords/dims/k" =
      some (.int32 dimensions.2.2) ∧
    (FillTopology cfg data_set n).2.get "coordsets/coords/origin/x" =
      some (.float64 origin.1) ∧
    (FillTopology cfg data_set n).2.get "coordsets/coords/origin/y" =
      some (.float64 origin.2.1) ∧
    (FillTopology cfg data_set n).2.get "coordsets/coords/origin/z" =
      some (.float64 origin.2.2) ∧
    (FillTopology cfg data_set n).2.get "coordsets/coords/spacing/dx" =
      some (.float64 spacing.1) ∧
    (FillTopology cfg data_set n).2.get "coordsets/coords/spacing/dy" =
      some (.float64 spacing.2.1) ∧
    (FillTopology cfg data_set n).2.get "coordsets/coords/spacing/dz" =
      some (.float64 spacing.2.2) ∧
    (∀ cfg' : BuildConfig, FillTopology cfg' data_set n = FillTopology cfg data_set n) ∧
    (∀ (q : String) (v : ExternalView),
      (FillTopology cfg data_set n).2.get q = some (.externalView v) →
        n.get q = some (.externalView v)) := by
  refine ⟨?_, ?_, ?_, ?_, ?_, ?_, ?_, ?_, ?_, ?_, ?_, ?_⟩
  case refine_11 =>
    intro cfg'
    rw [FillTopology_imageData cfg' data_set _ _ _ hgrid,
      FillTopology_imageData cfg data_set _ _ _ hgrid]
  case refine_12 =>
    intro q v h
    rw [FillTopology_imageData cfg data_set _ _ _ hgrid] at h
    iterate 12 replace h := Node.get_set_view _ _ _ (by intro w; simp) q v h
    exact h
  all_goals
    rw [FillTopology_imageData cfg data_set _ _ _ hgrid]
    try simp [Node.get_set]

/-- Witness of C12 on a grid of 2 x 3 x 4 points. -/
theorem C12_uniform_grid_witness :
    sampleImageData.grid = .imageData (2, 3, 4) (⟨10⟩, ⟨20⟩, ⟨30⟩) (⟨1⟩, ⟨2⟩, ⟨3⟩) ∧
    (FillTopology sampleConfig sampleImageData emptyNode).2.get "coordsets/coords/dims/k" =
      some (.int32 4) :=
  ⟨rfl, (C12_uniform_grid sampleConfig sampleImageData _ _ _ rfl emptyNode).2.2.2.1⟩

/-! ## Structured grids -/

/-- On a structured grid whose point array has a supported encoding the
three `elements/dims` entries hold `GetDimensions()` unchanged. -/
theorem FillTopology_structured_dims (cfg : BuildConfig) (data_set : vtkDataSet)
    (a : vtkDataArray) (k : ElementKind) (dimensions : Int × Int × Int)
    (hgrid : data_set.grid = .structuredGrid ⟨some a⟩ dimensions)
    (h : supportedAs cfg a k) (n : Node) :
    (FillTopology cfg data_set n).1 = true ∧
    (FillTopology cfg data_set n).2.get "topologies/mesh/elements/dims/i" =
      some (.int32 dimensions.1) ∧
    (FillTopology cfg data_set n).2.get "topologies/mesh/elements/dims/j" =
      some (.int32 dimensions.2.1) ∧
    (FillTopology cfg data_set n).2.get "topologies/mesh/elements/dims/k" =
      some (.int32 dimensions.2.2) := by
  simp [FillTopology, hgrid, ConvertPoints_of_supported cfg a k h, Node.get_set]

/-- C13, counterexample: a structured grid with point dimensions (2, 1, 1)
whose two points convert. `FillTopology` returns true and
`topologies/mesh/elements/dims/i` holds 2, the point dimension, which is not
the element count 2 - 1. -/
theorem C13_structured_dims_counterexample :
    sampleStructuredGrid.grid = .structuredGrid ⟨some sampleFloatArray⟩ (2, 1, 1) ∧
    (FillTopology sampleConfig sampleStructuredGrid emptyNode).1 = true ∧
    (FillTopology sampleConfig sampleStructuredGrid emptyNode).2.get
      "topologies/mesh/elements/dims/i" = some (.int32 2) ∧
    (FillTopology sampleConfig sampleStructuredGrid emptyNode).2.get
      "topologies/mesh/elements/dims/i" ≠ some (.int32 (2 - 1)) := by
  decide

/-- C13, amended: for every structured grid with point dimensions
(Ni, Nj, Nk) on which `FillTopology` returns true (its point array
converted), the written `topologies/mesh/elements/dims/i`, `/j`, `/k` are
Ni, Nj, Nk themselves, the values of `GetDimensions()` unchanged. -/
theorem C13_structured_dims_amended (cfg : BuildConfig) (data_set : vtkDataSet)
    (points : vtkPoints) (dimensions : Int × Int × Int)
    (hgrid : data_set.grid = .structuredGrid points dimensions) (n : Node)
    (hok : (FillTopology cfg data_set n).1 = true) :
    (FillTopology cfg data_set n).2.get "topologies/mesh/elements/dims/i" =
      some (.int32 dimensions.1) ∧
    (FillTopology cfg data_set n).2.get "topologies/mesh/elements/dims/j" =
      some (.int32 dimensions.2.1) ∧
    (FillTopology cfg data_set n).2.get "topologies/mesh/elements/dims/k" =
      some (.int32 dimensions.2.2) := by
  simp only [FillTopology, hgrid] at hok ⊢
  split_ifs at hok ⊢ with hp
  · simp [Node.get_set]
  · exact absurd hok hp

/-- Witness of C13 (amended) on the grid with point dimensions (2, 1, 1). -/
theorem C13_structured_dims_amended_witness :
    sampleStructuredGrid.grid = .structuredGrid ⟨some sampleFloatArray⟩ (2, 1, 1) ∧
    (FillTopology sampleConfig sampleStructuredGrid emptyNode).1 = true ∧
    (FillTopology sampleConfig sampleStructuredGrid emptyNode).2.get
      "topologies/mesh/elements/dims/j" = some (.int32 1) :=
  ⟨rfl, by decide,
    (C13_structured_dims_amended sampleConfig sampleStructuredGrid _ _ rfl emptyNode
      (by decide)).2.1⟩

/-! ## Short circuit on rectilinear grids -/

/-- C14: for every rectilinear grid, `FillTopology` converts the coordinate
arrays in the order x, y, z, each on the tree the previous conversion left,
and returns true iff all three conversions return true. When the x
conversion fails the result is what it left and `values/y`, `values/z`,
`topologies/mesh/type` and `topologies/mesh/coordset` hold what they held
before the call; when x succeeds and y fails the same holds for `values/z`
and the two topology entries; when only z fails it holds for the two
topology entries. -/
theorem C14_rectilinear_short_circuit (cfg : BuildConfig) (data_set : vtkDataSet)
    (X Y Z : vtkDataArray) (hgrid : data_set.grid = .rectilinearGrid X Y Z) (n : Node) :
    let rx := ConvertDataArrayToMCArray2 cfg X
      (n.set "coordsets/coords/type" (.string "rectilinear")) "coordsets/coords/values/x"
    let ry := ConvertDataArrayToMCArray2 cfg Y rx.2 "coordsets/coords/values/y"
    let rz := ConvertDataArrayToMCArray2 cfg Z ry.2 "coordsets/coords/values/z"
    let out := FillTopology cfg data_set n
    (out.1 = true ↔ rx.1 = true ∧ ry.1 = true ∧ rz.1 = true) ∧
    (rx.1 = false → out = (false, rx.2) ∧
      out.2.get "coordsets/coords/values/y" = n.get "coordsets/coords/values/y" ∧
      out.2.get "coordsets/coords/values/z" = n.get "coordsets/coords/values/z" ∧
      out.2.get "topologies/mesh/type" = n.get "topologies/mesh/type" ∧
      out.2.get "topologies/mesh/coordset" = n.get "topologies/mesh/coordset") ∧
    (rx.1 = true → ry.1 = false → out = (false, ry.2) ∧
      out.2.get "coordsets/coords/values/z" = n.get "coordsets/coords/values/z" ∧
      out.2.get "topologies/mesh/type" = n.get "topologies/mesh/type" ∧
      out.2.get "topologies/mesh/coordset" = n.get "topologies/mesh/coordset") ∧
    (rx.1 = true → ry.1 = true → rz.1 = false → out = (false, rz.2) ∧
      out.2.get "topologies/mesh/type" = n.get "topologies/mesh/type" ∧
      out.2.get "topologies/mesh/coordset" = n.get "topologies/mesh/coordset") := by
  intro rx ry rz out
  have erx : ConvertDataArrayToMCArray2 cfg X
      (n.set "coordsets/coords/type" (.string "rectilinear")) "coordsets/coords/values/x" =
        rx := rfl
  have ery : ConvertDataArrayToMCArray2 cfg Y rx.2 "coordsets/coords/values/y" = ry := rfl
  have erz : ConvertDataArrayToMCArray2 cfg Z ry.2 "coordsets/coords/values/z" = rz := rfl
  have eout : out = FillTopology cfg data_set n := rfl
  have fx : ∀ q, "coordsets/coords/values/x" ≠ q →
      rx.2.get q = (n.set "coordsets/coords/type" (.string "rectilinear")).get q :=
    fun q h => ConvertDataArrayToMCArray2_get_of_ne cfg X _ _ q h
  have fy : ∀ q, "coordsets/coords/values/y" ≠ q → ry.2.get q = rx.2.get q :=
    fun q h => ConvertDataArrayToMCArray2_get_of_ne cfg Y _ _ q h
  have fz : ∀ q, "coordsets/coords/values/z" ≠ q → rz.2.get q = ry.2.get q :=
    fun q h => ConvertDataArrayToMCArray2_get_of_ne cfg Z _ _ q h
  clear_value rx ry rz out
  subst eout
  by_cases hx : rx.1 = true
  · by_cases hy : ry.1 = true
    · by_cases hz : rz.1 = true
      · simp [FillTopology, hgrid, erx, ery, erz, hx, hy, hz]
      · have e : FillTopology cfg data_set n = rz := by
          simp [FillTopology, hgrid, erx, ery, erz, hx, hy, hz]
        have hz' : rz.1 = false := by simpa using hz
        rw [e]
        refine ⟨by simp [hx, hy, hz'], by simp [hx], by simp [hy], fun _ _ _ => ?_⟩
        refine ⟨Prod.ext hz' rfl, ?_, ?_⟩
        · rw [fz _ (by decide), fy _ (by decide), fx _ (by decide)]
          simp [Node.get_set]
        · rw [fz _ (by decide), fy _ (by decide), fx _ (by decide)]
          simp [Node.get_set]
    · have e : FillTopology cfg data_set n = ry := by
        simp [FillTopology, hgrid, erx, ery, hx, hy]
      have hy' : ry.1 = false := by simpa using hy
      rw [e]
      refine ⟨by simp [hx, hy'], by simp [hx], fun _ _ => ?_, by simp [hy']⟩
      refine ⟨Prod.ext hy' rfl, ?_, ?_, ?_⟩
      · rw [fy _ (by decide), fx _ (by decide)]
        simp [Node.get_set]
      · rw [fy _ (by decide), fx _ (by decide)]
        simp [Node.get_set]
      · rw [fy _ (by decide), fx _ (by decide)]
        simp [Node.get_set]
  · have e : FillTopology cfg data_set n = rx := by
      simp [FillTopology, hgrid, erx, hx]
    have hx' : rx.1 = false := by simpa using hx
    rw [e]
    refine ⟨by simp [hx'], fun _ => ?_, by simp [hx'], by simp [hx']⟩
    refine ⟨Prod.ext hx' rfl, ?_, ?_, ?_, ?_⟩
    · rw [fx _ (by decide)]
      simp [Node.get_set]
    · rw [fx _ (by decide)]
      simp [Node.get_set]
    · rw [fx _ (by decide)]
      simp [Node.get_set]
    · rw [fx _ (by decide)]
      simp [Node.get_set]

/-- Witness of C14 on a grid whose Y axis has no view constructor: the x
conversion succeeds, the y conversion fails, and `values/z` is absent. -/
theorem C14_rectilinear_short_circuit_witness :
    sampleRectilinearGridBadY.grid =
      .rectilinearGrid sampleDoubleArray sampleScaledArray sampleShortArray ∧
    (FillTopology sampleConfig sampleRectilinearGridBadY emptyNode).1 = false ∧
    (FillTopology sampleConfig sampleRectilinearGridBadY emptyNode).2.get
      "coordsets/coords/values/z" = none :=
  ⟨rfl, by decide,
    ((C14_rectilinear_short_circuit sampleConfig sampleRectilinearGridBadY sampleDoubleArray
      sampleScaledArray sampleShortArray rfl emptyNode).2.2.1 (by decide) (by decide)).2.1⟩

/-! ## Unstructured topology -/

/-- A list of cells of one kind is not of mixed shape. -/
theorem IsMixedShape_eq_false (cellTypes : List Int)
    (h : ∀ a ∈ cellTypes, ∀ b ∈ cellTypes, a = b) : IsMixedShape cellTypes = false := by
  cases hm : IsMixedShape cellTypes with
  | false => rfl
  | true =>
    obtain ⟨a, ha, b, hb, hab⟩ := (IsMixedShape_iff cellTypes).mp hm
    exact absurd (h a ha b hb) hab

/-- The unstructured branch of `FillTopology` on cells of one kind: the
coordinate step, then, when it succeeded, the topology type and coordset, the
shape switch on the type of cell 0 (`VTK_VERTEX` without cells) and the
conversion of the connectivity array. -/
theorem FillTopology_unstructured (cfg : BuildConfig) (data_set : vtkDataSet)
    (points : Option vtkPoints) (cellTypes : List Int) (connectivityArray : vtkDataArray)
    (hgrid : data_set.grid = .unstructuredGrid points cellTypes connectivityArray)
    (hmixed : IsMixedShape cellTypes = false) (n : Node) :
    FillTopology cfg data_set n =
      if (unstructuredCoordinates cfg points n).1 = true then
        ConvertDataArrayToMCArray2 cfg connectivityArray
          (setShape
            (((unstructuredCoordinates cfg points n).2.set "topologies/mesh/type"
              (.string "unstructured")).set "topologies/mesh/coordset" (.string "coords"))
            (if cellTypes.length > 0 then GetCellType cellTypes 0 else VTK_VERTEX))
          "topologies/mesh/elements/connectivity"
      else unstructuredCoordinates cfg points n := by
  cases points <;> simp [FillTopology, hgrid, hmixed, unstructuredCoordinates]

/-- The shape switch writes the literal of the cell type, or nothing. -/
theorem setShape_get (n : Node) (cell_type : Int) :
    (setShape n cell_type).get "topologies/mesh/elements/shape" =
      match shapeLiteral cell_type with
      | some s => some (.string s)
      | none => n.get "topologies/mesh/elements/shape" := by
  unfold setShape shapeLiteral
  split_ifs <;> simp [Node.get_set]

/-- The coordinate step does not write under `topologies/`. -/
theorem unstructuredCoordinates_get_of_not_mem (cfg : BuildConfig)
    (points : Option vtkPoints) (n : Node) (q : String)
    (h1 : "coordsets/coords/type" ≠ q) (hx : "coordsets/coords/values/x" ≠ q)
    (hy : "coordsets/coords/values/y" ≠ q) (hz : "coordsets/coords/values/z" ≠ q) :
    (unstructuredCoordinates cfg points n).2.get q = n.get q := by
  cases points with
  | none => simp [unstructuredCoordinates, Node.get_set, h1, hx, hy, hz]
  | some p =>
    simp [unstructuredCoordinates, ConvertPoints_get_of_ne _ _ _ _ _ _ _ hx hy hz,
      Node.get_set, h1]

/-- C15: for every unstructured grid whose cells are of one kind and whose
coordinate step succeeded, `topologies/mesh/elements/shape` after
`FillTopology` is determined by the type of cell 0 alone when there is a
cell: hexahedron gives "hex", tetra "tet", quad "quad", triangle "tri", line
"line", vertex "point"; without cells the shape written is "point". -/
theorem C15_shape_of_first_cell (cfg : BuildConfig) (data_set : vtkDataSet)
    (points : Option vtkPoints) (cellTypes : List Int) (connectivityArray : vtkDataArray)
    (hgrid : data_set.grid = .unstructuredGrid points cellTypes connectivityArray)
    (hkind : ∀ a ∈ cellTypes, ∀ b ∈ cellTypes, a = b) (n : Node)
    (hcoords : (unstructuredCoordinates cfg points n).1 = true) :
    (cellTypes = [] →
      (FillTopology cfg data_set n).2.get "topologies/mesh/elements/shape" =
        some (.string "point")) ∧
    (∀ (cell0 : Int) (others : List Int), cellTypes = cell0 :: others →
      (∀ s, shapeLiteral cell0 = some s →
        (FillTopology cfg data_set n).2.get "topologies/mesh/elements/shape" =
          some (.string s)) ∧
      (cell0 = VTK_HEXAHEDRON → (FillTopology cfg data_set n).2.get
        "topologies/mesh/elements/shape" = some (.string "hex")) ∧
      (cell0 = VTK_TETRA → (FillTopology cfg data_set n).2.get
        "topologies/mesh/elements/shape" = some (.string "tet")) ∧
      (cell0 = VTK_QUAD → (FillTopology cfg data_set n).2.get
        "topologies/mesh/elements/shape" = some (.string "quad")) ∧
      (cell0 = VTK_TRIANGLE → (FillTopology cfg data_set n).2.get
        "topologies/mesh/elements/shape" = some (.string "tri")) ∧
      (cell0 = VTK_LINE → (FillTopology cfg data_set n).2.get
        "topologies/mesh/elements/shape" = some (.string "line")) ∧
      (cell0 = VTK_VERTEX → (FillTopology cfg data_set n).2.get
        "topologies/mesh/elements/shape" = some (.string "point"))) := by
  have hmixed := IsMixedShape_eq_false cellTypes hkind
  have hget : (FillTopology cfg data_set n).2.get "topologies/mesh/elements/shape" =
      match shapeLiteral (if cellTypes.length > 0 then GetCellType cellTypes 0
        else VTK_VERTEX) with
      | some s => some (.string s)
      | none => n.get "topologies/mesh/elements/shape" := by
    rw [FillTopology_unstructured cfg data_set points cellTypes connectivityArray hgrid hmixed,
      if_pos hcoords, ConvertDataArrayToMCArray2_get_of_ne _ _ _ _ _ (by decide), setShape_get]
    cases shapeLiteral (if cellTypes.length > 0 then GetCellType cellTypes 0 else VTK_VERTEX)
    · simp only
      rw [Node.get_set_of_ne _ _ _ _ (by decide), Node.get_set_of_ne _ _ _ _ (by decide)]
      exact unstructuredCoordinates_get_of_not_mem cfg points n _ (by decide) (by decide)
        (by decide) (by decide)
    · rfl
  constructor
  · intro hnil
    rw [hget, hnil]
    rfl
  · intro cell0 others hcons
    have hlit : ∀ s, shapeLiteral cell0 = some s →
        (FillTopology cfg data_set n).2.get "topologies/mesh/elements/shape" =
          some (.string s) := by
      intro s hs
      rw [hget, hcons]
      simp [GetCellType, hs]
    refine ⟨hlit, ?_, ?_, ?_, ?_, ?_, ?_⟩ <;> intro h <;> subst h <;> exact hlit _ (by decide)

/-- Witness of C15 on a grid with one triangle. -/
theorem C15_shape_of_first_cell_witness :
    sampleTriangleGrid.grid =
      .unstructuredGrid (some ⟨some sampleFloatArray⟩) [VTK_TRIANGLE] sampleConnectivity ∧
    (unstructuredCoordinates sampleConfig (some ⟨some sampleFloatArray⟩) emptyNode).1 = true ∧
    (FillTopology sampleConfig sampleTriangleGrid emptyNode).2.get
      "topologies/mesh/elements/shape" = some (.string "tri") :=
  ⟨rfl, by decide,
    ((C15_shape_of_first_cell sampleConfig sampleTriangleGrid _ _ _ rfl
      (by intro a ha b hb; simp at ha hb; rw [ha, hb]) emptyNode (by decide)).2
        VTK_TRIANGLE [] rfl).2.2.2.2.1 rfl⟩

/-- The overload without offset and stride is the call with offset 0 and
stride 1, on every array. -/
theorem ConvertDataArrayToMCArray2_eq_unit_stride (cfg : BuildConfig) (a : vtkDataArray)
    (n : Node) (path : String) :
    ConvertDataArrayToMCArray2 cfg a n path = ConvertDataArrayToMCArray cfg a 0 1 n path := by
  unfold ConvertDataArrayToMCArray2
  rw [ConvertDataArrayToMCArray_eq, ConvertDataArrayToMCArray_eq]
  have h0 : max (0 : Int) 1 = 1 := by omega
  have h1 : max (1 : Int) 1 = 1 := by omega
  rw [h0, h1]

/-- A cell type without a case in the switch has no shape literal. -/
theorem shapeLiteral_of_not_mem (cell_type : Int) (h : cell_type ∉ mappedCellTypes) :
    shapeLiteral cell_type = none := by
  simp only [mappedCellTypes, List.mem_cons, List.mem_singleton, List.mem_nil_iff, or_false,
    not_or] at h
  obtain ⟨h1, h2, h3, h4, h5, h6⟩ := h
  simp [shapeLiteral, h1, h2, h3, h4, h5, h6]

/-- C16: for every unstructured grid whose cells are of one kind, whose
cell 0 has a type outside hexahedron, tetra, quad, triangle, line, vertex and
whose coordinate step succeeded, `FillTopology` writes no
`topologies/mesh/elements/shape` entry, still writes `topologies/mesh/type`
and `coordset`, and returns exactly the result of building one whole-array
view (offset 0, unit stride) of the connectivity array at
`topologies/mesh/elements/connectivity`; when that array has a supported
encoding the result is true and the view holds one element per value. -/
theorem C16_unmapped_shape (cfg : BuildConfig) (data_set : vtkDataSet)
    (points : Option vtkPoints) (cell0 : Int) (others : List Int)
    (connectivityArray : vtkDataArray)
    (hgrid : data_set.grid = .unstructuredGrid points (cell0 :: others) connectivityArray)
    (hkind : ∀ a ∈ cell0 :: others, ∀ b ∈ cell0 :: others, a = b)
    (hcell0 : cell0 ∉ mappedCellTypes) (n : Node)
    (hcoords : (unstructuredCoordinates cfg points n).1 = true) :
    FillTopology cfg data_set n =
      ConvertDataArrayToMCArray cfg connectivityArray 0 1
        (((unstructuredCoordinates cfg points n).2.set "topologies/mesh/type"
          (.string "unstructured")).set "topologies/mesh/coordset" (.string "coords"))
        "topologies/mesh/elements/connectivity" ∧
    (FillTopology cfg data_set n).2.get "topologies/mesh/elements/shape" =
      n.get "topologies/mesh/elements/shape" ∧
    (FillTopology cfg data_set n).2.get "topologies/mesh/type" =
      some (.string "unstructured") ∧
    (FillTopology cfg data_set n).2.get "topologies/mesh/coordset" =
      some (.string "coords") ∧
    (∀ k, supportedAs cfg connectivityArray k →
      (FillTopology cfg data_set n).1 = true ∧
      ∃ v : ExternalView,
        (FillTopology cfg data_set n).2.get "topologies/mesh/elements/connectivity" =
          some (.externalView v) ∧ v.kind = k ∧ isWholeArrayViewOf v connectivityArray) := by
  have hmixed := IsMixedShape_eq_false _ hkind
  have hlit := shapeLiteral_of_not_mem cell0 hcell0
  have hshape : ∀ m : Node, setShape m cell0 = m := by
    intro m
    simp only [mappedCellTypes, List.mem_cons, List.mem_singleton, List.mem_nil_iff, or_false,
      not_or] at hcell0
    obtain ⟨h1, h2, h3, h4, h5, h6⟩ := hcell0
    simp [setShape, h1, h2, h3, h4, h5, h6]
  have hfill : FillTopology cfg data_set n =
      ConvertDataArrayToMCArray cfg connectivityArray 0 1
        (((unstructuredCoordinates cfg points n).2.set "topologies/mesh/type"
          (.string "unstructured")).set "topologies/mesh/coordset" (.string "coords"))
        "topologies/mesh/elements/connectivity" := by
    rw [FillTopology_unstructured cfg data_set points _ connectivityArray hgrid hmixed,
      if_pos hcoords, ConvertDataArrayToMCArray2_eq_unit_stride]
    simp [GetCellType, hshape]
  refine ⟨hfill, ?_, ?_, ?_, ?_⟩
  · rw [hfill, ConvertDataArrayToMCArray_get_of_ne _ _ _ _ _ _ _ (by decide),
      Node.get_set_of_ne _ _ _ _ (by decide), Node.get_set_of_ne _ _ _ _ (by decide)]
    exact unstructuredCoordinates_get_of_not_mem cfg points n _ (by decide) (by decide)
      (by decide) (by decide)
  · rw [hfill, ConvertDataArrayToMCArray_get_of_ne _ _ _ _ _ _ _ (by decide),
      Node.get_set_of_ne _ _ _ _ (by decide), Node.get_set_self]
  · rw [hfill, ConvertDataArrayToMCArray_get_of_ne _ _ _ _ _ _ _ (by decide),
      Node.get_set_self]
  · intro k hk
    rw [hfill, ConvertDataArrayToMCArray_strided cfg _ k hk 0 1
      (isInt32_small 0 (by omega) (by omega)) (isInt32_small 1 (by omega) (by omega))]
    exact ⟨rfl, stridedView connectivityArray k 0 1, Node.get_set_self _ _ _, rfl,
      stridedView_whole connectivityArray k hk.2.1⟩

/-- Witness of C16 on a grid with one polygon: no shape entry, type written,
connectivity converted. -/
theorem C16_unmapped_shape_witness :
    samplePolygonGrid.grid =
      .unstructuredGrid (some ⟨some sampleFloatArray⟩) [VTK_POLYGON] sampleConnectivity ∧
    VTK_POLYGON ∉ mappedCellTypes ∧
    (unstructuredCoordinates sampleConfig (some ⟨some sampleFloatArray⟩) emptyNode).1 = true ∧
    (FillTopology sampleConfig samplePolygonGrid emptyNode).2.get
      "topologies/mesh/elements/shape" = none ∧
    (FillTopology sampleConfig samplePolygonGrid emptyNode).2.get "topologies/mesh/type" =
      some (.string "unstructured") :=
  ⟨rfl, by decide, by decide,
    (C16_unmapped_shape sampleConfig samplePolygonGrid _ VTK_POLYGON [] _ rfl
      (by intro a ha b hb; simp at ha hb; rw [ha, hb]) (by decide) emptyNode
      (by decide)).2.1,
    (C16_unmapped_shape sampleConfig samplePolygonGrid _ VTK_POLYGON [] _ rfl
      (by intro a ha b hb; simp at ha hb; rw [ha, hb]) (by decide) emptyNode
      (by decide)).2.2.1⟩

/-! ## The field loop: unnamed arrays and fail-fast -/

/-- The boolean result of the whole-array overload is `converts`. -/
theorem ConvertDataArrayToMCArray2_fst (cfg : BuildConfig) (a : vtkDataArray) (n : Node)
    (path : String) : (ConvertDataArrayToMCArray2 cfg a n path).1 = converts cfg a := by
  unfold converts ConvertDataArrayToMCArray2
  rw [ConvertDataArrayToMCArray_fst, ConvertDataArrayToMCArray_fst]

/-- The field loop skips unnamed arrays. -/
theorem FillFieldsLoop_namedArrays (cfg : BuildConfig) (association : String)
    (arrays : List vtkDataArray) (n : Node) :
    FillFieldsLoop cfg association arrays n =
      FillFieldsLoop cfg association (namedArrays arrays) n := by
  induction arrays generalizing n with
  | nil => rfl
  | cons a rest ih =>
    cases hname : a.GetName with
    | none =>
      have hf : namedArrays (a :: rest) = namedArrays rest := by
        simp [namedArrays, List.filter_cons, hname]
      rw [hf, ← ih]
      simp [FillFieldsLoop, hname]
    | some name =>
      have hf : namedArrays (a :: rest) = a :: namedArrays rest := by
        simp [namedArrays, List.filter_cons, hname]
      rw [hf]
      simp only [FillFieldsLoop, hname]
      split_ifs
      · exact ih _
      · rfl

/-- C19: an array with no name is skipped and never fatal. For every list of
arrays of an association group the field encoder returns the same boolean
and the same tree as on the list with the unnamed arrays removed, a list of
unnamed arrays alone gives true and the tree unchanged, and the same holds
for `FillFields` on a dataset with the unnamed arrays removed from its cell
and point data. -/
theorem C19_unnamed_arrays_skipped (cfg : BuildConfig) :
    (∀ (field_data : vtkFieldData) (association : String) (n : Node),
      FillFieldsOfFieldData cfg field_data association n =
        FillFieldsOfFieldData cfg ⟨namedArrays field_data.arrays⟩ association n) ∧
    (∀ (field_data : vtkFieldData) (association : String) (n : Node),
      (∀ a ∈ field_data.arrays, a.GetName = none) →
        FillFieldsOfFieldData cfg field_data association n = (true, n)) ∧
    (∀ (data_set : vtkDataSet) (n : Node),
      FillFields cfg data_set n = FillFields cfg (withoutUnnamedArrays data_set) n) := by
  refine ⟨?_, ?_, ?_⟩
  · intro field_data association n
    exact FillFieldsLoop_namedArrays cfg association field_data.arrays n
  · intro field_data association n h
    have hf : namedArrays field_data.arrays = [] := by
      simp only [namedArrays, List.filter_eq_nil_iff]
      intro a ha
      simp [h a ha]
    unfold FillFieldsOfFieldData
    rw [FillFieldsLoop_namedArrays, hf]
    rfl
  · intro data_set n
    obtain ⟨grid, cd, pd, fd⟩ := data_set
    cases cd <;> cases pd <;> cases fd <;>
      simp [FillFields, FillFieldsOfFieldData, withoutUnnamedArrays,
        ← FillFieldsLoop_namedArrays]

/-- Witness of C19: an unnamed array without a view constructor between two
named arrays changes nothing. -/
theorem C19_unnamed_arrays_skipped_witness :
    FillFieldsOfFieldData sampleConfig ⟨[sampleShortArray, sampleUnnamedArray,
      sampleDoubleArray]⟩ "element" emptyNode =
    FillFieldsOfFieldData sampleConfig ⟨[sampleShortArray, sampleDoubleArray]⟩ "element"
      emptyNode :=
  (C19_unnamed_arrays_skipped sampleConfig).1
    ⟨[sampleShortArray, sampleUnnamedArray, sampleDoubleArray]⟩ "element" emptyNode

/-- The field loop stops at the first named array whose conversion fails:
the arrays after it do not matter. -/
theorem FillFieldsLoop_fail_fast (cfg : BuildConfig) (association : String)
    (before : List vtkDataArray) (a : vtkDataArray) (after : List vtkDataArray)
    (hbefore : ∀ b ∈ before, b.GetName ≠ none → converts cfg b = true)
    (hname : a.GetName ≠ none) (hfail : converts cfg a = false) (n : Node) :
    FillFieldsLoop cfg association (before ++ a :: after) n =
      (false, (FillFieldsLoop cfg association (before ++ [a]) n).2) := by
  induction before generalizing n with
  | nil =>
    obtain ⟨name, hn⟩ := Option.ne_none_iff_exists'.mp hname
    simp only [List.nil_append, FillFieldsLoop, hn, ConvertDataArrayToMCArray2_fst, hfail]
    simp only [Bool.false_eq_true, if_false]
    exact Prod.ext (by rw [ConvertDataArrayToMCArray2_fst, hfail]) rfl
  | cons b rest ih =>
    have hrest : ∀ c ∈ rest, c.GetName ≠ none → converts cfg c = true :=
      fun c hc => hbefore c (List.mem_cons_of_mem b hc)
    cases hb : b.GetName with
    | none =>
      simp only [List.cons_append, FillFieldsLoop, hb]
      exact ih hrest n
    | some name =>
      have hconv : converts cfg b = true := hbefore b (List.mem_cons_self b rest) (by simp [hb])
      simp only [List.cons_append, FillFieldsLoop, hb, ConvertDataArrayToMCArray2_fst, hconv,
        if_true]
      exact ih hrest _

/-- C18: fail-fast in the field encoder. If the array at index `k` of an
association group (here `before.length`) is the first whose view conversion
fails, the group's encoder returns false and leaves the tree that the first
`k + 1` arrays produce, whatever arrays follow; if the group is the cell
data, `FillFields` returns false with that tree, whatever the point data is;
if it is the point data and the cell data succeeded, `FillFields` returns
false with the tree of the cell data and the first `k + 1` point arrays. -/
theorem C18_fail_fast (cfg : BuildConfig) (before : List vtkDataArray) (a : vtkDataArray)
    (after : List vtkDataArray)
    (hbefore : ∀ b ∈ before, b.GetName ≠ none → converts cfg b = true)
    (hname : a.GetName ≠ none) (hfail : converts cfg a = false) :
    (∀ (association : String) (n : Node),
      FillFieldsOfFieldData cfg ⟨before ++ a :: after⟩ association n =
        (false, (FillFieldsOfFieldData cfg ⟨before ++ [a]⟩ association n).2)) ∧
    (∀ (data_set : vtkDataSet) (n : Node),
      data_set.GetCellData = some ⟨before ++ a :: after⟩ →
        FillFields cfg data_set n =
          (false, (FillFieldsOfFieldData cfg ⟨before ++ [a]⟩ "element" n).2)) ∧
    (∀ (data_set : vtkDataSet) (cell_data : vtkFieldData) (n : Node),
      data_set.GetCellData = some cell_data →
      (FillFieldsOfFieldData cfg cell_data "element" n).1 = true →
      data_set.GetPointData = some ⟨before ++ a :: after⟩ →
        FillFields cfg data_set n =
          (false, (FillFieldsOfFieldData cfg ⟨before ++ [a]⟩ "vertex"
            (FillFieldsOfFieldData cfg cell_data "element" n).2).2)) := by
  have hloop := fun association n =>
    FillFieldsLoop_fail_fast cfg association before a after hbefore hname hfail n
  refine ⟨fun association n => hloop association n, ?_, ?_⟩
  · intro data_set n hcell
    obtain ⟨grid, cd, pd, fd⟩ := data_set
    simp only at hcell
    subst hcell
    simp only [FillFields, FillFieldsOfFieldData, hloop]
    simp
  · intro data_set cell_data n hcell hok hpoint
    obtain ⟨grid, cd, pd, fd⟩ := data_set
    simp only at hcell hpoint
    subst hcell hpoint
    simp only [FillFieldsOfFieldData] at hok
    simp only [FillFields, FillFieldsOfFieldData, hok, hloop]
    simp

/-- Witness of C18: in a cell group of a short array, the scaled array and a
double array the encoder fails at index 1; `fields/d/values` of the double
array and `fields/p/values` of the point array are absent. -/
theorem C18_fail_fast_witness :
    converts sampleConfig sampleShortArray = true ∧
    converts sampleConfig sampleScaledArray = false ∧
    FillFields sampleConfig sampleImageWithBadCellField emptyNode =
      (false, (FillFieldsOfFieldData sampleConfig ⟨[sampleShortArray, sampleScaledArray]⟩
        "element" emptyNode).2) ∧
    (FillFields sampleConfig sampleImageWithBadCellField emptyNode).2.get "fields/d/values" =
      none ∧
    (FillFields sampleConfig sampleImageWithBadCellField emptyNode).2.get "fields/p/values" =
      none :=
  ⟨by decide, by decide,
    (C18_fail_fast sampleConfig [sampleShortArray] sampleScaledArray [sampleDoubleArray]
      (by intro b hb _; simp at hb; rw [hb]; decide) (by decide) (by decide)).2.1
      sampleImageWithBadCellField emptyNode rfl,
    by decide, by decide⟩

/-! ## Missing point positions -/

/-- C20, counterexample: an unstructured grid with one cell and no points
object. `FillTopology` and `FillConduitNode` return true, and the coordinate
entries are empty sequences. -/
theorem C20_missing_points_counterexample :
    sampleCellsWithoutPoints.grid = .unstructuredGrid none [VTK_VERTEX] sampleConnectivity ∧
    (FillTopology sampleConfig sampleCellsWithoutPoints emptyNode).1 = true ∧
    (FillConduitNode sampleConfig (.dataSet sampleCellsWithoutPoints) emptyNode).1 = true ∧
    (FillConduitNode sampleConfig (.dataSet sampleCellsWithoutPoints) emptyNode).2.get
      "coordsets/coords/values/x" = some (.float32Array []) := by
  decide

/-- C20, amended: for every unstructured grid that has at least one cell and
whose points object is present but holds no point-position array,
`FillTopology` and hence `FillConduitNode` return false; when the points
object itself is absent and the cells are of one kind, `FillTopology` writes
three empty coordinate sequences and returns what the conversion of the
connectivity array returns. -/
theorem C20_missing_points_amended (cfg : BuildConfig) (data_set : vtkDataSet)
    (points : Option vtkPoints) (cellTypes : List Int) (connectivityArray : vtkDataArray)
    (hgrid : data_set.grid = .unstructuredGrid points cellTypes connectivityArray)
    (_hcells : cellTypes ≠ []) (n : Node) :
    (points = some ⟨none⟩ →
      (FillTopology cfg data_set n).1 = false ∧
      (FillConduitNode cfg (.dataSet data_set) n).1 = false) ∧
    (points = none → (∀ a ∈ cellTypes, ∀ b ∈ cellTypes, a = b) →
      (FillTopology cfg data_set n).1 = converts cfg connectivityArray ∧
      ∀ p ∈ coordinateValuePaths,
        (FillTopology cfg data_set n).2.get p = some (.float32Array [])) := by
  constructor
  · intro hp
    subst hp
    have ht : (FillTopology cfg data_set n).1 = false := by
      cases hm : IsMixedShape cellTypes <;>
        simp [FillTopology, hgrid, hm, ConvertPoints_no_data]
    refine ⟨ht, ?_⟩
    simp [FillConduitNode, FillConduitNodeOfDataSet, ht]
  · intro hp hkind
    subst hp
    have hmixed := IsMixedShape_eq_false cellTypes hkind
    rw [FillTopology_unstructured cfg data_set none cellTypes connectivityArray hgrid hmixed]
    have hc : (unstructuredCoordinates cfg none n).1 = true := rfl
    rw [if_pos hc]
    refine ⟨ConvertDataArrayToMCArray2_fst _ _ _ _, fun p hp => ?_⟩
    simp only [coordinateValuePaths, List.mem_cons, List.mem_singleton, List.mem_nil_iff,
      or_false] at hp
    rcases hp with rfl | rfl | rfl <;>
      rw [ConvertDataArrayToMCArray2_get_of_ne _ _ _ _ _ (by decide),
        setShape_get_of_ne _ _ _ (by decide)] <;>
      simp [unstructuredCoordinates, Node.get_set]

/-- Witness of C20 (amended) on a one-cell grid whose points object holds no
array. -/
theorem C20_missing_points_amended_witness :
    sampleCellsWithEmptyPoints.grid =
      .unstructuredGrid (some ⟨none⟩) [VTK_VERTEX] sampleConnectivity ∧
    [VTK_VERTEX] ≠ [] ∧
    (FillTopology sampleConfig sampleCellsWithEmptyPoints emptyNode).1 = false ∧
    (FillConduitNode sampleConfig (.dataSet sampleCellsWithEmptyPoints) emptyNode).1 = false :=
  ⟨rfl, by decide,
    (C20_missing_points_amended sampleConfig sampleCellsWithEmptyPoints _ _ _ rfl
      (by decide) emptyNode).1 rfl⟩

/-! ## The entries of a named field -/

/-- `FillFields` is the cell loop followed, when it succeeded, by the point
loop; the field-data collection plays no part. -/
theorem FillFields_eq (cfg : BuildConfig) (data_set : vtkDataSet) (n : Node) :
    FillFields cfg data_set n =
      if (FillFieldsLoop cfg "element"
          ((data_set.GetCellData.map fun fd => fd.arrays).getD []) n).1 = true then
        FillFieldsLoop cfg "vertex" ((data_set.GetPointData.map fun fd => fd.arrays).getD [])
          (FillFieldsLoop cfg "element"
            ((data_set.GetCellData.map fun fd => fd.arrays).getD []) n).2
      else
        FillFieldsLoop cfg "element"
          ((data_set.GetCellData.map fun fd => fd.arrays).getD []) n := by
  obtain ⟨grid, cd, pd, fd⟩ := data_set
  cases cd <;> cases pd <;> cases fd <;>
    simp only [FillFields, FillFieldsOfFieldData, Option.map, Option.getD, FillFieldsLoop,
      if_true] <;>
    split_ifs with h <;> first | rfl | exact Prod.ext h rfl

/-- C17, the code at the failing input: a uniform grid whose point data is
one named bit array. `FillFields` returns true and writes association
"vertex", topology "mesh" and volume_dependent "false" for the field, but no
values entry: the whole-array view of the array is missing. -/
theorem C17_field_without_values :
    sampleImageWithBitField.GetPointData = some ⟨[sampleBitArray]⟩ ∧
    sampleBitArray.GetName = some "b" ∧
    (FillFields sampleConfig sampleImageWithBitField emptyNode).1 = true ∧
    (FillFields sampleConfig sampleImageWithBitField emptyNode).2.get "fields/b/association" =
      some (.string "vertex") ∧
    (FillFields sampleConfig sampleImageWithBitField emptyNode).2.get "fields/b/topology" =
      some (.string "mesh") ∧
    (FillFields sampleConfig sampleImageWithBitField emptyNode).2.get
      "fields/b/volume_dependent" = some (.string "false") ∧
    (FillFields sampleConfig sampleImageWithBitField emptyNode).2.get "fields/b/values" =
      none := by
  decide

/-! ## Unsupported dataset kinds and the field-data collection -/

/-- C22: for every dataset that is not a uniform, rectilinear, structured or
unstructured grid, `FillTopology` returns false and leaves the tree
unchanged, and `FillConduitNode` returns false with the tree unchanged, so
the Field Encoder is not run even when it would write fields. -/
theorem C22_unsupported_dataset_kind (cfg : BuildConfig) (data_set : vtkDataSet)
    (hgrid : data_set.grid = .otherDataSet) (n : Node) :
    FillTopology cfg data_set n = (false, n) ∧
    FillConduitNode cfg (.dataSet data_set) n = (false, n) ∧
    FillConduitNode cfg (.dataSet data_set) n = FillTopology cfg data_set n := by
  have ht : FillTopology cfg data_set n = (false, n) := by
    simp only [FillTopology, hgrid]
  refine ⟨ht, ?_, ?_⟩ <;> simp [FillConduitNode, FillConduitNodeOfDataSet, ht]

/-- Witness of C22 on a dataset of another kind that carries a named point
array: the Field Encoder alone would write `fields/p/association`, the
orchestrator leaves the tree empty. -/
theorem C22_unsupported_dataset_kind_witness :
    sampleOtherDataSet.grid = .otherDataSet ∧
    (FillFields sampleConfig sampleOtherDataSet emptyNode).2.get "fields/p/association" =
      some (.string "vertex") ∧
    FillConduitNode sampleConfig (.dataSet sampleOtherDataSet) emptyNode = (false, emptyNode) :=
  ⟨rfl, by decide, (C22_unsupported_dataset_kind sampleConfig sampleOtherDataSet rfl emptyNode).2.1⟩

/-- C23: the field-data collection is never exported. For any two datasets
that differ only in their field-data collection, `FillConduitNode` returns
the same boolean and the same tree. -/
theorem C23_field_data_not_exported (cfg : BuildConfig) (data_set1 data_set2 : vtkDataSet)
    (hgrid : data_set1.grid = data_set2.grid)
    (hcell : data_set1.GetCellData = data_set2.GetCellData)
    (hpoint : data_set1.GetPointData = data_set2.GetPointData) (n : Node) :
    FillConduitNode cfg (.dataSet data_set1) n = FillConduitNode cfg (.dataSet data_set2) n := by
  have ht : FillTopology cfg data_set1 n = FillTopology cfg data_set2 n := by
    simp only [FillTopology, hgrid]
  have hf : ∀ m, FillFields cfg data_set1 m = FillFields cfg data_set2 m := by
    intro m
    rw [FillFields_eq, FillFields_eq, hcell, hpoint]
  simp only [FillConduitNode, FillConduitNodeOfDataSet, ht, hf]

/-- Witness of C23 on the structured sample grid with and without a
field-data collection. -/
theorem C23_field_data_not_exported_witness :
    sampleStructuredGrid.GetFieldData ≠ sampleStructuredGridWithFieldData.GetFieldData ∧
    FillConduitNode sampleConfig (.dataSet sampleStructuredGrid) emptyNode =
      FillConduitNode sampleConfig (.dataSet sampleStructuredGridWithFieldData) emptyNode :=
  ⟨by decide,
    C23_field_data_not_exported sampleConfig sampleStructuredGrid
      sampleStructuredGridWithFieldData rfl rfl rfl emptyNode⟩

/-! ## Views stay inside the source buffer -/

/-- With `T / s` elements, a stride `s ≥ 1` and an offset `0 ≤ o < s`, the
source index `o + i * s` of every view index `i < T / s` is below `T`. -/
theorem strided_index_lt (T : Nat) (o s i : Int) (hs : 1 ≤ s) (ho0 : 0 ≤ o) (hos : o < s)
    (hi0 : 0 ≤ i) (hi : i < (T : Int) / s) : 0 ≤ o + i * s ∧ o + i * s < T := by
  have hdiv : (T : Int) / s * s ≤ T := Int.ediv_mul_le _ (by omega)
  have h1 : i + 1 ≤ (T : Int) / s := by omega
  have h2 : (i + 1) * s ≤ (T : Int) / s * s := Int.mul_le_mul_of_nonneg_right h1 (by omega)
  have h3 : (i + 1) * s = i * s + s := by ring
  have h4 : 0 ≤ i * s := Int.mul_nonneg hi0 (by omega)
  constructor <;> omega

/-- C24: views never index past the source buffer. For every array of a
supported encoding with `T` values, every `int` stride `s ≥ 1` and every
offset `o` with `0 ≤ o < s`, the view the view builder sets has `T / s`
elements, and every view index `i < T / s` lies at the address of source
value `o + i * s`, an index that is at least 0 and below `T`, whether or not
`s` divides `T`. -/
theorem C24_view_within_buffer (cfg : BuildConfig) (a : vtkDataArray) (k : ElementKind)
    (h : supportedAs cfg a k) (offset stride : Int) (hstride : isInt32 stride)
    (hs : 1 ≤ stride) (ho0 : 0 ≤ offset) (hos : offset < stride) (n : Node) (path : String) :
    ∃ v : ExternalView,
      (ConvertDataArrayToMCArray cfg a offset stride n path).2.get path =
        some (.externalView v) ∧
      v.numberOfElements = (a.GetNumberOfValues : Int) / stride ∧
      ∀ i : Int, 0 ≤ i → i < v.numberOfElements →
        v.elementAddress i = a.valueAddress (offset + i * stride) ∧
        (∀ memory : Int → Nat, v.read memory i = a.read memory (offset + i * stride)) ∧
        0 ≤ offset + i * stride ∧ offset + i * stride < a.GetNumberOfValues := by
  have hoff : isInt32 offset := by
    unfold isInt32 at *
    omega
  have hmax : max stride 1 = stride := by omega
  refine ⟨stridedView a k offset stride, ?_, ?_, ?_⟩
  · rw [ConvertDataArrayToMCArray_strided cfg a k h offset stride hoff hstride,
      Node.get_set_self]
  · rw [stridedView_numberOfElements, hmax]
  · intro i hi0 hi
    rw [stridedView_numberOfElements, hmax] at hi
    refine ⟨?_, fun memory => ?_, strided_index_lt _ offset stride i hs ho0 hos hi0 hi⟩
    · rw [stridedView_elementAddress, hmax]
    · rw [stridedView_read, hmax]

/-- Witness of C24 on five shorts with offset 1 and stride 2, which does not
divide 5: the view has two elements, at source values 1 and 3. -/
theorem C24_view_within_buffer_witness :
    supportedAs sampleConfig sampleShortArray .signedInt ∧ isInt32 2 ∧
    ∃ v : ExternalView,
      (ConvertDataArrayToMCArray sampleConfig sampleShortArray 1 2 emptyNode "v").2.get "v" =
        some (.externalView v) ∧
      v.numberOfElements = 2 :=
  ⟨sampleShortArray_supported, by unfold isInt32; omega,
    (C24_view_within_buffer sampleConfig sampleShortArray .signedInt
      sampleShortArray_supported 1 2 (by unfold isInt32; omega) (by omega) (by omega)
      (by omega) emptyNode "v").imp fun _ hv => ⟨hv.1, hv.2.1⟩⟩

/-! ## Signedness of the exported views -/

/-- The kinds the dispatch selects: in both builds short, int, long and long
long are signed and unsigned char is unsigned; when plain `char` is signed
every unsigned tag is unsigned; when plain `char` is unsigned the tags
unsigned short, unsigned int, unsigned long and unsigned long long pass no
kind test. -/
theorem elementKind_of_tags (cfg : BuildConfig) :
    (∀ t ∈ signedTypeTags, elementKind cfg t = some .signedInt) ∧
    elementKind cfg VTK_UNSIGNED_CHAR = some .unsignedInt ∧
    (cfg.charIsSigned = true → ∀ t ∈ unsignedTypeTags, elementKind cfg t = some .unsignedInt) ∧
    (cfg.charIsSigned = false → ∀ t ∈ unsignedTypeTags, t ≠ VTK_UNSIGNED_CHAR →
      elementKind cfg t = none) := by
  obtain ⟨c, l⟩ := cfg
  cases c <;> cases l <;> decide

/-- In a build with signed plain `char`, an array with an unsigned tag, a
supported width and a recognised layout is exported as an unsigned view, and
in every build an array with tag short, int, long or long long is exported
as a signed view. -/
theorem exported_signedness (cfg : BuildConfig) (a : vtkDataArray)
    (hw : widthSupported .signedInt a.GetDataTypeSize = true)
    (hl : layoutRecognized a.GetArrayType = true) (offset stride : Int) (n : Node)
    (path : String) :
    (cfg.charIsSigned = true → a.GetDataType ∈ unsignedTypeTags →
      ∃ v, ConvertDataArrayToMCArray cfg a offset stride n path =
        (true, n.set path (.externalView v)) ∧ v.kind = .unsignedInt ∧
        (v.width : Int) = a.GetDataTypeSize) ∧
    (a.GetDataType ∈ signedTypeTags →
      ∃ v, ConvertDataArrayToMCArray cfg a offset stride n path =
        (true, n.set path (.externalView v)) ∧ v.kind = .signedInt ∧
        (v.width : Int) = a.GetDataTypeSize) := by
  have hk := elementKind_of_tags cfg
  have hwn := (widthSupported_toNat .signedInt _ hw).2
  constructor
  · intro hc ht
    have hs : supportedAs cfg a .unsignedInt := ⟨hk.2.2.1 hc _ ht, hw, hl⟩
    exact ⟨_, ConvertDataArrayToMCArray_of_supported cfg a _ hs offset stride n path, rfl, hwn⟩
  · intro ht
    have hs : supportedAs cfg a .signedInt := ⟨hk.1 _ ht, hw, hl⟩
    exact ⟨_, ConvertDataArrayToMCArray_of_supported cfg a _ hs offset stride n path, rfl, hwn⟩

/-- C25, the code at the failing input: in a build with unsigned plain
`char`, an interleaved array of 2-byte unsigned shorts passes neither the
signed nor the unsigned test, and the view builder returns true without
setting a view; the same array is exported as an unsigned 2-byte view when
plain `char` is signed. -/
theorem C25_unsigned_short_not_exported :
    sampleUnsignedCharConfig.charIsSigned = false ∧
    IsSignedIntegralType sampleUnsignedCharConfig sampleUnsignedShortArray.GetDataType =
      false ∧
    IsUnsignedIntegralType sampleUnsignedCharConfig sampleUnsignedShortArray.GetDataType =
      false ∧
    ConvertDataArrayToMCArray2 sampleUnsignedCharConfig sampleUnsignedShortArray emptyNode "v" =
      (true, emptyNode) ∧
    (ConvertDataArrayToMCArray2 sampleConfig sampleUnsignedShortArray emptyNode "v").2.get "v" =
      some (.externalView ⟨.unsignedInt, 2, 10000, 4, 0, 2⟩) := by
  decide

/-! ## Overlap of the kind tests -/

/-- The floating-point test excludes the two integer tests, in every build. -/
theorem IsFloatType_disjoint (cfg : BuildConfig) (data_type : Int)
    (h : IsFloatType data_type = true) :
    IsSignedIntegralType cfg data_type = false ∧
    IsUnsignedIntegralType cfg data_type = false := by
  obtain ⟨c, l⟩ := cfg
  simp only [IsFloatType, Bool.or_eq_true, beq_iff_eq] at h
  rcases h with h | h <;> subst h <;> cases c <;> cases l <;> decide

/-- C26, the code at the failing input: with signed plain `char` the tag
`VTK_ID_TYPE` passes both the signed and the unsigned test, and with
unsigned plain `char` the tag `VTK_SHORT` does; for both the kind selected
is signed with the signed test first and would be unsigned with the unsigned
test first. -/
theorem C26_kind_tests_overlap :
    IsSignedIntegralType sampleConfig VTK_ID_TYPE = true ∧
    IsUnsignedIntegralType sampleConfig VTK_ID_TYPE = true ∧
    IsSignedIntegralType sampleUnsignedCharConfig VTK_SHORT = true ∧
    IsUnsignedIntegralType sampleUnsignedCharConfig VTK_SHORT = true ∧
    elementKind sampleConfig VTK_ID_TYPE = some .signedInt ∧
    elementKindUnsignedFirst sampleConfig VTK_ID_TYPE = some .unsignedInt ∧
    elementKind sampleUnsignedCharConfig VTK_SHORT = some .signedInt ∧
    elementKindUnsignedFirst sampleUnsignedCharConfig VTK_SHORT = some .unsignedInt := by
  decide

/-! ## Structured grids without usable points -/

/-- On a structured grid whose points object holds no array, or an array of
a classified kind with an unsupported width or an unrecognised layout,
`ConvertPoints` and `FillTopology` return false, `coordsets/coords/type` is
"explicit" and the `topologies/mesh` entries hold what they held before. -/
theorem FillTopology_structured_fails (cfg : BuildConfig) (data_set : vtkDataSet)
    (points : vtkPoints) (dimensions : Int × Int × Int)
    (hgrid : data_set.grid = .structuredGrid points dimensions) (n : Node)
    (hbad : points.GetData = none ∨
      ∃ a k, points.GetData = some a ∧ elementKind cfg a.GetDataType = some k ∧
        (widthSupported k a.GetDataTypeSize = false ∨
          layoutRecognized a.GetArrayType = false)) :
    (ConvertPoints cfg points (n.set "coordsets/coords/type" (.string "explicit"))
      "coordsets/coords/values/x" "coordsets/coords/values/y"
      "coordsets/coords/values/z").1 = false ∧
    (FillTopology cfg data_set n).1 = false ∧
    (FillTopology cfg data_set n).2.get "coordsets/coords/type" =
      some (.string "explicit") ∧
    ∀ q ∈ ["topologies/mesh/type", "topologies/mesh/coordset",
        "topologies/mesh/elements/dims/i", "topologies/mesh/elements/dims/j",
        "topologies/mesh/elements/dims/k"],
      (FillTopology cfg data_set n).2.get q = n.get q := by
  have hcp : ConvertPoints cfg points (n.set "coordsets/coords/type" (.string "explicit"))
      "coordsets/coords/values/x" "coordsets/coords/values/y" "coordsets/coords/values/z" =
        (false, n.set "coordsets/coords/type" (.string "explicit")) := by
    obtain ⟨data⟩ := points
    rcases hbad with h | ⟨a, k, ha, hk, hw⟩
    · simp only at h
      subst h
      rfl
    · simp only at ha
      subst ha
      simp [ConvertPoints, ConvertDataArrayToMCArray_unsupported cfg a k hk hw]
  have hft : FillTopology cfg data_set n =
      (false, n.set "coordsets/coords/type" (.string "explicit")) := by
    simp [FillTopology, hgrid, hcp]
  rw [hcp, hft]
  refine ⟨rfl, rfl, Node.get_set_self _ _ _, fun q hq => ?_⟩
  simp only [List.mem_cons, List.mem_singleton, List.mem_nil_iff, or_false] at hq
  rcases hq with rfl | rfl | rfl | rfl | rfl <;>
    exact Node.get_set_of_ne _ _ _ _ (by decide)

/-- C21, the code at the failing input: a structured grid whose point array
is a bit array, an encoding without a view constructor. `ConvertPoints` and
`FillTopology` return true, no coordinate view is set, and
`topologies/mesh/type`, `coordset` and `elements/dims/i` are written. -/
theorem C21_unsupported_points_accepted :
    sampleStructuredGridBitPoints.grid =
      .structuredGrid ⟨some sampleBitPointArray⟩ (2, 1, 1) ∧
    elementKind sampleConfig sampleBitPointArray.GetDataType = none ∧
    (ConvertPoints sampleConfig ⟨some sampleBitPointArray⟩ emptyNode "x" "y" "z") =
      (true, emptyNode) ∧
    (FillTopology sampleConfig sampleStructuredGridBitPoints emptyNode).1 = true ∧
    (FillTopology sampleConfig sampleStructuredGridBitPoints emptyNode).2.get
      "coordsets/coords/values/x" = none ∧
    (FillTopology sampleConfig sampleStructuredGridBitPoints emptyNode).2.get
      "topologies/mesh/type" = some (.string "structured") ∧
    (FillTopology sampleConfig sampleStructuredGridBitPoints emptyNode).2.get
      "topologies/mesh/coordset" = some (.string "coords") ∧
    (FillTopology sampleConfig sampleStructuredGridBitPoints emptyNode).2.get
      "topologies/mesh/elements/dims/i" = some (.int32 2) := by
  decide

/-! ## One entry per path -/

/-- With a separator in a name the paths of one field lie below an entry of
another: after a cell array named "p" and one named "p/values" the tree
holds the view of the first at `fields/p/values` and an entry at
`fields/p/values/association`, so it is no longer a tree of leaves. -/
theorem separator_in_name_writes_below_leaf :
    ¬ plainNames (cellArrays sampleNestedNameGrid ++ pointArrays sampleNestedNameGrid) ∧
    (FillConduitNode sampleConfig (.dataSet sampleNestedNameGrid) emptyNode).1 = true ∧
    (FillConduitNode sampleConfig (.dataSet sampleNestedNameGrid) emptyNode).2.get
      "fields/p/values" =
        some (.externalView (stridedView sampleCellArrayNamedP .signedInt 0 1)) ∧
    (FillConduitNode sampleConfig (.dataSet sampleNestedNameGrid) emptyNode).2.get
      "fields/p/values/association" = some (.string "element") := by
  refine ⟨fun h => ?_, by decide, by decide, by decide⟩
  exact absurd (h sampleArrayNamedPValues (by decide) "p/values" rfl)
    (by unfold plainName; decide)

end vtkDataObjectToConduit
